import Mathlib

/-!
Verification development for the token-budgeted chunking and chained-prompt
orchestration core of `services/token_manager.py` in the
`proposal_generator_desktop_v2` repository.

The Python source is shallowly embedded: text is `List Char` (Python `str`),
dictionaries with a fixed key universe become structures with `Option`
fields, the two LLM clients are modelled as a scripted response stream
(`ClientState`), and the only impure inputs (wall-clock timestamps) are
injected as explicit parameters.  Machine arithmetic: all counts are `Nat`;
the source's float expression `int(max(words * 1.3, chars / 4))` is embedded
as `max (13 * words / 10) (chars / 4)` with `Nat` division, which agrees with
IEEE-754 double evaluation for every word count below two million
(`int(w*1.3) == 13*w//10` checked exhaustively on that range; `chars / 4` is
exact in binary floating point).
-/

namespace TokenManagerModel

/-- Python whitespace predicate (`str.isspace` / `\s` for the ASCII range
actually exercised by this code base): space, tab, LF, CR, VT, FF. -/
def pyIsSpace (c : Char) : Bool :=
  c = ' ' || c = '\t' || c = '\n' || c = '\x0d' || c = '\x0b' || c = '\x0c'

/-- The sequence of non-whitespace characters of a text (used to state the
coverage properties: "losslessly modulo whitespace normalization"). -/
def nonWs (l : List Char) : List Char :=
  l.filter (fun c => !pyIsSpace c)

/-- Python `str.strip()` with no arguments: remove leading and trailing
whitespace. -/
def pyStrip (l : List Char) : List Char :=
  ((l.dropWhile pyIsSpace).reverse.dropWhile pyIsSpace).reverse

/-- Helper for `pyWordSplit`: `acc` is the current word accumulated in
reverse (empty when between words). -/
def pyWordSplitGo : List Char → List Char → List (List Char)
  | [], acc => if acc = [] then [] else [acc.reverse]
  | c :: rest, acc =>
    if pyIsSpace c then
      if acc = [] then pyWordSplitGo rest []
      else acc.reverse :: pyWordSplitGo rest []
    else pyWordSplitGo rest (c :: acc)

/-- Python `str.split()` with no arguments: split on runs of whitespace,
discarding empty pieces. -/
def pyWordSplit (l : List Char) : List (List Char) :=
  pyWordSplitGo l []

/-- Python `text.split('\n\n')` — the only separator this module ever
splits on — scanning left to right over non-overlapping occurrences.  `acc`
is the current piece accumulated in reverse. -/
def splitNNGo : List Char → List Char → List (List Char)
  | [], acc => [acc.reverse]
  | [c], acc => [(c :: acc).reverse]
  | c1 :: c2 :: rest, acc =>
    if c1 = '\n' ∧ c2 = '\n' then
      acc.reverse :: splitNNGo rest []
    else
      splitNNGo (c2 :: rest) (c1 :: acc)

/-- Python `text.split('\n\n')`. -/
def splitNN (l : List Char) : List (List Char) :=
  splitNNGo l []

/-- Embeds `TokenLimits.AVG_CHARS_PER_TOKEN`. -/
def AVG_CHARS_PER_TOKEN : Nat := 4

/-- Embeds `TokenLimits.MIN_CHUNK_SIZE`. -/
def MIN_CHUNK_SIZE : Nat := 500

/-- Embeds `TokenLimits.MAX_OVERLAP`. -/
def MAX_OVERLAP : Nat := 200

/-- Embeds `TokenManager.estimate_tokens`: `0` for empty text, else
`int(max(words * 1.3, chars / 4))` (see the module docstring for the exact
float-to-`Nat` correspondence). -/
def estimate_tokens (text : List Char) : Nat :=
  if text = [] then 0
  else
    max (13 * (pyWordSplit text).length / 10)
        (text.length / AVG_CHARS_PER_TOKEN)

/-- The specification's description of the estimator, stated over exact
rationals: the integer truncation of the larger of the word-based estimate
(word count times 1.3) and the character-based estimate (character count
divided by 4). -/
def estimateSpecRat (text : List Char) : Nat :=
  ⌊max ((13 : ℚ) / 10 * ((pyWordSplit text).length : ℚ))
       ((text.length : ℚ) / 4)⌋₊

/-- Helper for `sentenceSplit`: `acc` holds the current piece in reverse, so
`acc.head?` is the character immediately preceding the scan position (the
regex lookbehind `(?<=[.!?])`). -/
def sentenceSplitGo : List Char → List Char → List (List Char)
  | [], acc => [acc.reverse]
  | c :: rest, acc =>
    if (acc.head? = some '.' || acc.head? = some '!' || acc.head? = some '?')
        && pyIsSpace c then
      acc.reverse :: sentenceSplitGo (rest.dropWhile pyIsSpace) []
    else
      sentenceSplitGo rest (c :: acc)
termination_by l _ => l.length
decreasing_by
  · have h : (rest.dropWhile pyIsSpace).length ≤ rest.length :=
      List.IsSuffix.length_le (List.dropWhile_suffix pyIsSpace)
    simp only [List.length_cons]
    omega
  · simp +arith [List.length_cons]

/-- Embeds `re.split(r'(?<=[.!?])\s+', text)`: split at each maximal whitespace run
immediately preceded by `.`, `!` or `?`. -/
def sentenceSplit (l : List Char) : List (List Char) :=
  sentenceSplitGo l []

/-- ASCII lowercasing extended with the uppercase accented characters that
occur in the Spanish section keywords (`re.IGNORECASE` is Unicode-aware; the
embedding covers the alphabet this code base actually matches against). -/
def pyLowerChar (c : Char) : Char :=
  if c = 'Á' then 'á' else if c = 'É' then 'é' else if c = 'Í' then 'í'
  else if c = 'Ó' then 'ó' else if c = 'Ú' then 'ú' else if c = 'Ñ' then 'ñ'
  else if c = 'Ü' then 'ü' else c.toLower

/-- Python `\w` for the alphabet this code base matches against: ASCII
alphanumerics, underscore, and the Spanish accented letters. -/
def isWordChar (c : Char) : Bool :=
  c.isAlphanum || c = '_' ||
  c ∈ (['á', 'é', 'í', 'ó', 'ú', 'ñ', 'ü', 'Á', 'É', 'Í', 'Ó', 'Ú', 'Ñ', 'Ü'] : List Char)

/-- One-pass scan for the positions of `'\n'`, carrying the current index. -/
def newlineIdxsGo : List Char → Nat → List Nat
  | [], _ => []
  | c :: rest, i =>
    if c = '\n' then i :: newlineIdxsGo rest (i + 1)
    else newlineIdxsGo rest (i + 1)

/-- Positions of `'\n'` in the text, ascending.  A match of a regex anchored
by `(?:^|\n)` can only start at index 0 or at one of these indices. -/
def newlineIdxs (l : List Char) : List Nat :=
  newlineIdxsGo l 0

/-- The candidate start positions for a `(?:^|\n)`-anchored pattern:
position 0 and every newline position, ascending, without duplicates. -/
def anchorCandidates (l : List Char) : List Nat :=
  (0 :: newlineIdxs l).dedup

/-- Embeds `re.finditer` for an anchored pattern: scan candidate start positions in
ascending order and skip candidates inside an already-matched span
(non-overlapping matches).  `matcher p` returns the end index of a match
starting at `p`, if any. -/
def finditerGo (matcher : Nat → Option Nat) : List Nat → Nat → List (Nat × Nat)
  | [], _ => []
  | p :: ps, resume =>
    if p < resume then finditerGo matcher ps resume
    else
      match matcher p with
      | some e => (p, e) :: finditerGo matcher ps e
      | none => finditerGo matcher ps resume

def finditerAnchored (matcher : Nat → Option Nat) (l : List Char) : List (Nat × Nat) :=
  finditerGo matcher (anchorCandidates l) 0

/-- One alternation group of `_split_by_major_sections`: the lowercase
keyword alternatives, in source order, and whether the group is followed by
an optional `s` (only the objectives pattern is). -/
structure SectionPattern where
  keywords : List (List Char)
  optionalS : Bool := false
deriving Repr

/-- The 24 major-section patterns of `_split_by_major_sections`, each of the
form `(?i)(?:^|\n)\s*(?:\d+\.?\s*)?(?:kw1|kw2|...)` (the second English
pattern additionally ends in `s?`). -/
def majorSectionPatterns : List SectionPattern :=
  [ { keywords := ["background".data, "context".data, "overview".data, "introduction".data] },
    { keywords := ["objective".data, "purpose".data, "goal".data, "aim".data], optionalS := true },
    { keywords := ["scope".data, "coverage".data, "geographical".data] },
    { keywords := ["methodology".data, "approach".data, "implementation".data] },
    { keywords := ["activities".data, "tasks".data, "work".data, "deliverable".data] },
    { keywords := ["timeline".data, "schedule".data, "duration".data, "timeframe".data] },
    { keywords := ["budget".data, "financial".data, "cost".data, "funding".data] },
    { keywords := ["qualification".data, "requirement".data, "competenc".data, "skill".data] },
    { keywords := ["evaluation".data, "assessment".data, "selection".data] },
    { keywords := ["monitoring".data, "reporting".data, "m&e".data] },
    { keywords := ["sustainability".data, "impact".data, "outcome".data] },
    { keywords := ["risk".data, "assumption".data, "constraint".data] },
    { keywords := ["antecedentes".data, "contexto".data, "introducción".data] },
    { keywords := ["objetivo".data, "propósito".data, "meta".data, "finalidad".data] },
    { keywords := ["alcance".data, "cobertura".data, "ámbito".data] },
    { keywords := ["metodología".data, "enfoque".data, "implementación".data] },
    { keywords := ["actividades".data, "tareas".data, "trabajo".data, "entregable".data] },
    { keywords := ["cronograma".data, "calendario".data, "duración".data] },
    { keywords := ["presupuesto".data, "financiamiento".data, "costo".data] },
    { keywords := ["calificación".data, "requisito".data, "competencia".data] },
    { keywords := ["evaluación".data, "selección".data, "valoración".data] },
    { keywords := ["monitoreo".data, "seguimiento".data, "reporte".data] },
    { keywords := ["sostenibilidad".data, "impacto".data, "resultado".data] },
    { keywords := ["riesgo".data, "supuesto".data, "limitación".data] } ]

/-- Case-insensitive literal prefix test. -/
def kwIsPrefixAt (kw : List Char) (s : List Char) : Bool :=
  kw.isPrefixOf (s.take kw.length |>.map pyLowerChar)

/-- Number of characters the optional numeric prefix `(?:\d+\.?\s*)?`
consumes at the head of `s` (0 when there is no digit: keywords start with
letters, so regex backtracking into the optional group cannot help). -/
def numericPrefixLen (s : List Char) : Nat :=
  let ds := s.takeWhile Char.isDigit
  if ds = [] then 0
  else
    let rest1 := s.drop ds.length
    let dot := if rest1.head? = some '.' then 1 else 0
    let rest2 := rest1.drop dot
    ds.length + dot + (rest2.takeWhile pyIsSpace).length

/-- Matcher for one major-section pattern at anchored position `p` of `l`:
consume the anchor (`^` or `\n`) together with `\s*` as one whitespace skip,
then the optional numeric prefix, then the first keyword alternative that
matches (plus an optional trailing `s`).  Returns the end index. -/
def majorMatchEnd (l : List Char) (pat : SectionPattern) (p : Nat) : Option Nat :=
  let s := l.drop p
  let ws := (s.takeWhile pyIsSpace).length
  let s1 := s.drop ws
  let np := numericPrefixLen s1
  let s2 := s1.drop np
  match pat.keywords.find? (fun kw => kwIsPrefixAt kw s2) with
  | none => none
  | some kw =>
    let base := p + ws + np + kw.length
    if pat.optionalS && (s2.drop kw.length).head?.map pyLowerChar = some 's' then
      some (base + 1)
    else
      some base

/-- Modelled from the spec: Python's builtin `hash` on strings (used only in
the `_extract_section_name` fallback) is salted per process and therefore has
no portable value; the spec only relies on the fallback label being a
`section_<n>` name with `n < 1000`.  We model it as a fixed pure stand-in. -/
def pyStrHash (l : List Char) : Nat :=
  l.foldl (fun a c => (a * 31 + c.toNat) % 1000000007) 7

/-- Replace each maximal whitespace run by a single underscore
(`re.sub(r'\s+', '_', ...)`). -/
def collapseWsToUnderscore : List Char → List Char
  | [] => []
  | c :: rest =>
    if pyIsSpace c then '_' :: collapseWsToUnderscore (rest.dropWhile pyIsSpace)
    else c :: collapseWsToUnderscore rest
termination_by l => l.length
decreasing_by
  · have h : (rest.dropWhile pyIsSpace).length ≤ rest.length :=
      List.IsSuffix.length_le (List.dropWhile_suffix pyIsSpace)
    simp only [List.length_cons]
    omega
  · simp +arith [List.length_cons]

/-- Embeds `TokenManager._extract_section_name`: strip the header, drop a leading
`\s*\d+\.?\s*` run (only when a digit is present, as in the regex), remove
non-word non-space characters, lowercase, collapse whitespace runs to
underscores, truncate to 30 characters; an empty result falls back to
`section_<hash(header) % 1000>`. -/
def extractSectionName (header : List Char) : String :=
  let h1 := pyStrip header
  let afterWs := h1.dropWhile pyIsSpace
  let h2 :=
    if (afterWs.head?.map Char.isDigit).getD false then
      let b := afterWs.dropWhile Char.isDigit
      let c := if b.head? = some '.' then b.drop 1 else b
      c.dropWhile pyIsSpace
    else h1
  let h3 := h2.filter (fun c => isWordChar c || pyIsSpace c)
  let h4 := collapseWsToUnderscore (h3.map pyLowerChar)
  if h4 ≠ [] then (h4.take 30).asString
  else "section_" ++ toString (pyStrHash header % 1000)

/-- Code-point lexicographic order on character lists (Python string `<`). -/
def listCharLe : List Char → List Char → Bool
  | [], _ => true
  | _ :: _, [] => false
  | a :: as, b :: bs =>
    if a.toNat < b.toNat then true
    else if b.toNat < a.toNat then false
    else listCharLe as bs

/-- A section break as collected by `_split_by_major_sections`:
`(match.start(), section_name, match.group())`. -/
abbrev SectionBreak := Nat × String × List Char

/-- Python tuple `<=` on section breaks (position, then name, then matched
text, code-point lexicographically). -/
def breakLe (a b : SectionBreak) : Bool :=
  if a.1 ≠ b.1 then decide (a.1 < b.1)
  else if a.2.1 ≠ b.2.1 then listCharLe a.2.1.data b.2.1.data
  else listCharLe a.2.2 b.2.2

/-- Stable insertion preserving the relative order of `breakLe`-equal
elements (matches Python's stable `list.sort`). -/
def insertBreak (x : SectionBreak) : List SectionBreak → List SectionBreak
  | [] => [x]
  | y :: ys => if breakLe y x then y :: insertBreak x ys else x :: y :: ys

def sortBreaks (l : List SectionBreak) : List SectionBreak :=
  l.foldl (fun acc x => insertBreak x acc) []

/-- The dedup pass of `_split_by_major_sections`: keep the first break, then
keep a break only when it is more than 50 characters after the last kept
one. -/
def uniqueBreaksGo (last : Nat) : List SectionBreak → List SectionBreak
  | [] => []
  | b :: bs => if b.1 - last > 50 then b :: uniqueBreaksGo b.1 bs
               else uniqueBreaksGo last bs

def uniqueBreaks : List SectionBreak → List SectionBreak
  | [] => []
  | b :: bs => b :: uniqueBreaksGo b.1 bs

/-- Substring `l[a:b]` (Python slice with `0 ≤ a ≤ b`). -/
def pySlice (l : List Char) (a b : Nat) : List Char :=
  (l.drop a).take (b - a)

/-- All `(start, name, group)` triples collected over the 24 major-section
patterns, in pattern-major order as in the source loop. -/
def majorSectionBreaks (l : List Char) : List SectionBreak :=
  majorSectionPatterns.flatMap (fun pat =>
    (finditerAnchored (majorMatchEnd l pat) l).map (fun pe =>
      let g := pySlice l pe.1 pe.2
      (pe.1, extractSectionName g, g)))

/-- One Python chunk/section dict.  The source passes dictionaries with a
fixed universe of keys; a key that a given code path does not set is `none`
(`dict.get` defaults are applied at the use sites, as in the source).
`content` and the `section` label are present in every dict the code
constructs.  The `section` key is renamed `sectionLabel` (`section` is a
Lean keyword); `processed_at` holds the injected wall-clock timestamp. -/
structure PyChunk where
  content : List Char
  sectionLabel : String
  index : Option Nat := none
  tokens_estimated : Option Nat := none
  chunk_id : Option String := none
  word_count : Option Nat := none
  char_count : Option Nat := none
  processed_at : Option Nat := none
  start_pos : Option Nat := none
  end_pos : Option Nat := none
deriving Repr, DecidableEq

instance : Inhabited PyChunk := ⟨{ content := [], sectionLabel := "" }⟩

/-- Embeds `TokenManager._split_by_major_sections`: collect breaks over all
patterns, sort, dedup at 50 characters, require at least two breaks, then
cut the text between consecutive break positions (everything before the
first break is discarded), keeping only stripped sections longer than
`MIN_CHUNK_SIZE`. -/
def splitByMajorSections (l : List Char) : List PyChunk :=
  let breaks := uniqueBreaks (sortBreaks (majorSectionBreaks l))
  if breaks.length < 2 then []
  else
    (List.range breaks.length).filterMap (fun i =>
      match breaks.drop i with
      | [] => none
      | b :: rest =>
        let endPos := match rest with
          | [] => l.length
          | b2 :: _ => b2.1
        let sectionContent := pyStrip (pySlice l b.1 endPos)
        if sectionContent.length > MIN_CHUNK_SIZE then
          some { content := sectionContent
                 sectionLabel := b.2.1
                 start_pos := some b.1
                 end_pos := some endPos }
        else none)

/-- ASCII letter (`[A-Za-z]`; all subsection patterns carry `(?i)`). -/
def isAsciiLetter (c : Char) : Bool :=
  ('a' ≤ c && c ≤ 'z') || ('A' ≤ c && c ≤ 'Z')

/-- Roman-numeral letters `[ivxlc]` under `(?i)`. -/
def isRomanChar (c : Char) : Bool :=
  pyLowerChar c ∈ (['i', 'v', 'x', 'l', 'c'] : List Char)

/-- Matchers for the five subsection patterns, all anchored by
`(?:^|\n)\s*` (handled by the caller's whitespace skip); each returns the
number of characters consumed after that skip, or `none`. -/
def subsecBody1 (s : List Char) : Option Nat :=
  -- (?:\d+\.\d+\.?\s*)(?:[A-Za-z])
  let d1 := s.takeWhile Char.isDigit
  if d1 = [] then none else
  let r1 := s.drop d1.length
  if r1.head? ≠ some '.' then none else
  let r2 := r1.drop 1
  let d2 := r2.takeWhile Char.isDigit
  if d2 = [] then none else
  let r3 := r2.drop d2.length
  let dot := if r3.head? = some '.' then 1 else 0
  let r4 := r3.drop dot
  let ws := (r4.takeWhile pyIsSpace).length
  let r5 := r4.drop ws
  if (r5.head?.map isAsciiLetter).getD false then
    some (d1.length + 1 + d2.length + dot + ws + 1)
  else none

def subsecBody2 (s : List Char) : Option Nat :=
  -- (?:[a-z]\)\s*)(?:[A-Za-z]) with (?i): the class [a-z] is any ASCII letter
  match s with
  | a :: ')' :: rest =>
    if isAsciiLetter a then
      let ws := (rest.takeWhile pyIsSpace).length
      if ((rest.drop ws).head?.map isAsciiLetter).getD false then
        some (2 + ws + 1)
      else none
    else none
  | _ => none

def subsecBody3 (s : List Char) : Option Nat :=
  -- (?:[ivxlc]+\.\s*)(?:[A-Za-z])
  let rs := s.takeWhile isRomanChar
  if rs = [] then none else
  let r1 := s.drop rs.length
  if r1.head? ≠ some '.' then none else
  let r2 := r1.drop 1
  let ws := (r2.takeWhile pyIsSpace).length
  if ((r2.drop ws).head?.map isAsciiLetter).getD false then
    some (rs.length + 1 + ws + 1)
  else none

def subsecBody4 (s : List Char) : Option Nat :=
  -- (?:•|\*|-|\+)\s*(?:[A-Za-z])
  match s with
  | b :: rest =>
    if b = '•' || b = '*' || b = '-' || b = '+' then
      let ws := (rest.takeWhile pyIsSpace).length
      if ((rest.drop ws).head?.map isAsciiLetter).getD false then
        some (1 + ws + 1)
      else none
    else none
  | _ => none

def subsecBody5 (s : List Char) : Option Nat :=
  -- (?:\d+\.?\s*[A-Z]) with (?i): the final class is any ASCII letter
  let ds := s.takeWhile Char.isDigit
  if ds = [] then none else
  let r1 := s.drop ds.length
  let dot := if r1.head? = some '.' then 1 else 0
  let r2 := r1.drop dot
  let ws := (r2.takeWhile pyIsSpace).length
  if ((r2.drop ws).head?.map isAsciiLetter).getD false then
    some (ds.length + dot + ws + 1)
  else none

/-- Lift a subsection body matcher to an anchored matcher on positions. -/
def subsecMatchEnd (l : List Char) (body : List Char → Option Nat) (p : Nat) : Option Nat :=
  let s := l.drop p
  let ws := (s.takeWhile pyIsSpace).length
  (body (s.drop ws)).map (fun n => p + ws + n)

def subsectionBodies : List (List Char → Option Nat) :=
  [subsecBody1, subsecBody2, subsecBody3, subsecBody4, subsecBody5]

/-- The `(start, name)` pairs of `_split_by_subsections`, numbered in
collection (pattern-major) order. -/
def subsectionBreaks (l : List Char) : List (Nat × String) :=
  let starts := subsectionBodies.flatMap (fun body =>
    (finditerAnchored (subsecMatchEnd l body) l).map (·.1))
  starts.enum.map (fun pi => (pi.2, "subsection_" ++ toString pi.1))

/-- Python tuple `<=` on `(pos, name)` pairs. -/
def posNameLe (a b : Nat × String) : Bool :=
  if a.1 ≠ b.1 then decide (a.1 < b.1) else listCharLe a.2.data b.2.data

def insertPosName (x : Nat × String) : List (Nat × String) → List (Nat × String)
  | [] => [x]
  | y :: ys => if posNameLe y x then y :: insertPosName x ys else x :: y :: ys

def sortPosNames (l : List (Nat × String)) : List (Nat × String) :=
  l.foldl (fun acc x => insertPosName x acc) []

/-- Embeds `TokenManager._split_by_subsections`. -/
def splitBySubsections (l : List Char) : List PyChunk :=
  let breaks := sortPosNames (subsectionBreaks l)
  if breaks.length < 2 then []
  else
    (List.range breaks.length).filterMap (fun i =>
      match breaks.drop i with
      | [] => none
      | b :: rest =>
        let endPos := match rest with
          | [] => l.length
          | b2 :: _ => b2.1
        let sectionContent := pyStrip (pySlice l b.1 endPos)
        if sectionContent.length > MIN_CHUNK_SIZE then
          some { content := sectionContent, sectionLabel := b.2 }
        else none)

/-- Python paragraph list
`[p.strip() for p in content.split('\n\n') if p.strip()]`. -/
def pyParagraphs (content : List Char) : List (List Char) :=
  ((splitNN content).map pyStrip).filter (· ≠ [])

/-- Accumulate trailing sentences of `content` (scanned in reverse) while
they fit in `overlapTokens`; stop at the first sentence that does not fit
(the `break` in `_create_overlap`). -/
def createOverlapGo (overlapTokens : Nat) :
    List (List Char) → List Char → Nat → List Char
  | [], acc, _ => acc
  | s :: rest, acc, cur =>
    let st := estimate_tokens s
    if cur + st ≤ overlapTokens then
      let acc' := if acc ≠ [] then s ++ (' ' :: acc) else s
      createOverlapGo overlapTokens rest acc' (cur + st)
    else acc

/-- Embeds `TokenManager._create_overlap`. -/
def createOverlap (content : List Char) (overlapTokens : Nat) : List Char :=
  if overlapTokens = 0 then []
  else
    let oc := createOverlapGo overlapTokens (sentenceSplit content).reverse [] 0
    if oc ≠ [] then oc ++ ('\n' :: '\n' :: []) else []

/-- The backwards word-boundary scan of the character chunkers: first
position `i` in `e, e-1, ..., max(start, e-100)+1` holding whitespace, else
`e` unchanged.  The caller guarantees `e < text.length`. -/
def wordBoundaryAdjust (text : List Char) (start e : Nat) : Nat :=
  match (List.range (e - max start (e - 100))).find?
      (fun k => pyIsSpace (text.getD (e - k) 'x')) with
  | some k => e - k
  | none => e

/-- The window end of one character-chunking iteration: `min(start +
max_chars, len)` snapped back to a word boundary when it is not the end of
the text. -/
def windowEnd (text : List Char) (maxChars start : Nat) : Nat :=
  if min (start + maxChars) text.length < text.length then
    wordBoundaryAdjust text start (min (start + maxChars) text.length)
  else min (start + maxChars) text.length

/-- The loop of `TokenManager._character_chunk_text`.  The source loop does
not terminate when `max_chars = 0` (then `end == start` forever); that value
is unreachable from `intelligent_chunk_tor` with a positive token budget and
is mapped to `[]` here. -/
def charChunkTextGo (text : List Char) (maxChars : Nat) (start : Nat) :
    List (List Char) :=
  if hm : maxChars = 0 then []
  else if h : start < text.length then
    let e1 := windowEnd text maxChars start
    let piece := pyStrip (pySlice text start e1)
    (if piece ≠ [] then [piece] else []) ++
      (if h2 : e1 < text.length then charChunkTextGo text maxChars e1 else [])
  else []
termination_by text.length - start
decreasing_by
  have hgt : start < windowEnd text maxChars start := by
    unfold windowEnd
    split
    · unfold wordBoundaryAdjust
      split
      next k hf =>
        have hk' := List.mem_range.mp (List.mem_of_find?_eq_some hf)
        have hb : start ≤ max start (min (start + maxChars) text.length - 100) :=
          le_max_left _ _
        omega
      next => omega
    · omega
  omega

/-- Embeds `TokenManager._character_chunk_text`. -/
def charChunkText (text : List Char) (maxTokens : Nat) : List (List Char) :=
  charChunkTextGo text (maxTokens * AVG_CHARS_PER_TOKEN) 0

/-- The sentence loop of `TokenManager._split_large_paragraph`, with state
`(accumulated chunks, current_chunk, current_tokens)`. -/
def splitLargeParagraphGo (maxTokens : Nat) (secName : String) :
    List (List Char) → List PyChunk → List Char → Nat → List PyChunk
  | [], chunks, cur, curT =>
    chunks ++
      (if cur ≠ [] then
        [{ content := pyStrip cur
           sectionLabel := secName ++ "_sentence_" ++ toString chunks.length
           tokens_estimated := some curT }]
      else [])
  | s :: rest, chunks, cur, curT =>
    let st := estimate_tokens s
    if curT + st ≤ maxTokens then
      let cur' := if cur ≠ [] then cur ++ (' ' :: s) else s
      splitLargeParagraphGo maxTokens secName rest chunks cur' (curT + st)
    else
      let chunks1 :=
        if cur ≠ [] then
          chunks ++
            [{ content := pyStrip cur
               sectionLabel := secName ++ "_sentence_" ++ toString chunks.length
               tokens_estimated := some curT }]
        else chunks
      if st > maxTokens then
        let ccs := charChunkText s maxTokens
        let chunks2 := chunks1 ++ ccs.enum.map (fun ic =>
          { content := ic.2
            sectionLabel := secName ++ "_char_" ++ toString ic.1
            tokens_estimated := some (estimate_tokens ic.2) })
        splitLargeParagraphGo maxTokens secName rest chunks2 [] 0
      else
        splitLargeParagraphGo maxTokens secName rest chunks1 s st

/-- Embeds `TokenManager._split_large_paragraph`. -/
def splitLargeParagraph (paragraph : List Char) (maxTokens : Nat)
    (secName : String) : List PyChunk :=
  splitLargeParagraphGo maxTokens secName (sentenceSplit paragraph) [] [] 0

/-- The paragraph loop of `TokenManager._split_large_section`. -/
def splitLargeSectionGo (maxTokens : Nat) (secName : String) :
    List (List Char) → List PyChunk → List Char → Nat → List PyChunk
  | [], chunks, cur, curT =>
    chunks ++
      (if cur ≠ [] then
        [{ content := pyStrip cur
           sectionLabel := secName ++ "_part_" ++ toString chunks.length
           tokens_estimated := some curT }]
      else [])
  | p :: rest, chunks, cur, curT =>
    let pt := estimate_tokens p
    if pt > maxTokens then
      let chunks1 :=
        if cur ≠ [] then
          chunks ++
            [{ content := pyStrip cur
               sectionLabel := secName ++ "_part_" ++ toString chunks.length
               tokens_estimated := some curT }]
        else chunks
      let chunks2 := chunks1 ++ splitLargeParagraph p maxTokens secName
      splitLargeSectionGo maxTokens secName rest chunks2 [] 0
    else if curT + pt ≤ maxTokens then
      let cur' := if cur ≠ [] then cur ++ ('\n' :: '\n' :: p) else p
      splitLargeSectionGo maxTokens secName rest chunks cur' (curT + pt)
    else
      let chunks1 :=
        if cur ≠ [] then
          chunks ++
            [{ content := pyStrip cur
               sectionLabel := secName ++ "_part_" ++ toString chunks.length
               tokens_estimated := some curT }]
        else chunks
      splitLargeSectionGo maxTokens secName rest chunks1 p pt

/-- Embeds `TokenManager._split_large_section` (`overlap_tokens` is accepted and
unused, as in the source). -/
def splitLargeSection (sec : PyChunk) (maxTokens : Nat) (_overlapTokens : Nat) :
    List PyChunk :=
  splitLargeSectionGo maxTokens sec.sectionLabel (pyParagraphs sec.content) [] [] 0

/-- The paragraph loop of `TokenManager._paragraph_chunk`. -/
def paragraphChunkGo (maxTokens : Nat) :
    List (List Char) → List PyChunk → List Char → Nat → List PyChunk
  | [], chunks, cur, curT =>
    chunks ++
      (if cur ≠ [] then
        [{ content := pyStrip cur
           sectionLabel := "paragraph_chunk_" ++ toString chunks.length
           tokens_estimated := some curT }]
      else [])
  | p :: rest, chunks, cur, curT =>
    let pt := estimate_tokens p
    if curT + pt ≤ maxTokens then
      let cur' := if cur ≠ [] then cur ++ ('\n' :: '\n' :: p) else p
      paragraphChunkGo maxTokens rest chunks cur' (curT + pt)
    else
      let chunks1 :=
        if cur ≠ [] then
          chunks ++
            [{ content := pyStrip cur
               sectionLabel := "paragraph_chunk_" ++ toString chunks.length
               tokens_estimated := some curT }]
        else chunks
      paragraphChunkGo maxTokens rest chunks1 p pt

/-- Embeds `TokenManager._paragraph_chunk` (`overlap_tokens` accepted and unused,
as in the source). -/
def paragraphChunk (content : List Char) (maxTokens : Nat)
    (_overlapTokens : Nat) : List PyChunk :=
  paragraphChunkGo maxTokens (pyParagraphs content) [] [] 0

/-- The loop of `TokenManager._character_chunk`: fixed-size windows snapped
to word boundaries, restarting `overlap_chars` before the previous window's
end (but always at least one character forward). -/
def characterChunkGo (content : List Char) (maxChars overlapChars : Nat)
    (start idx : Nat) : List PyChunk :=
  if h : start < content.length then
    let e1 := windowEnd content maxChars start
    let cc := pyStrip (pySlice content start e1)
    let here : List PyChunk :=
      if cc ≠ [] then
        [{ content := cc
           sectionLabel := "char_chunk_" ++ toString idx
           tokens_estimated := some (estimate_tokens cc) }]
      else []
    let idx' := if cc ≠ [] then idx + 1 else idx
    (if h2 : max (e1 - overlapChars) (start + 1) ≥ e1 then here
     else here ++ characterChunkGo content maxChars overlapChars
            (max (e1 - overlapChars) (start + 1)) idx')
  else []
termination_by content.length - start
decreasing_by
  have hge : start + 1 ≤ max (windowEnd content maxChars start - overlapChars) (start + 1) :=
    le_max_right _ _
  have hwe : windowEnd content maxChars start ≤ content.length := by
    unfold windowEnd
    split
    next h3 =>
      unfold wordBoundaryAdjust
      split
      next k hf => omega
      next => omega
    next => omega
  omega

/-- Embeds `TokenManager._character_chunk`. -/
def characterChunk (content : List Char) (maxTokens overlapTokens : Nat) :
    List PyChunk :=
  characterChunkGo content (maxTokens * AVG_CHARS_PER_TOKEN)
    (overlapTokens * AVG_CHARS_PER_TOKEN) 0 0

/-- The section loop of `TokenManager._hierarchical_chunk`, carrying the
running chunk list and `section_overlap`. -/
def hierarchicalChunkGo (maxTokens overlapTokens : Nat) :
    List PyChunk → Nat → List PyChunk → List Char → List PyChunk
  | [], _, chunks, _ => chunks
  | sec :: rest, i, chunks, secOverlap =>
    let sTok := estimate_tokens sec.content
    if sTok ≤ maxTokens then
      let chunkContent := secOverlap ++ sec.content
      if estimate_tokens chunkContent ≤ maxTokens then
        let chunks1 := chunks ++
          [{ content := pyStrip chunkContent
             sectionLabel := sec.sectionLabel
             index := some i
             tokens_estimated := some (estimate_tokens chunkContent) }]
        hierarchicalChunkGo maxTokens overlapTokens rest (i + 1) chunks1
          (createOverlap sec.content overlapTokens)
      else
        -- `chunks.append(section)`: the raw section dict is appended
        hierarchicalChunkGo maxTokens overlapTokens rest (i + 1) (chunks ++ [sec])
          (createOverlap sec.content overlapTokens)
    else
      let sub := splitLargeSection sec maxTokens overlapTokens
      let secOverlap' :=
        match sub.getLast? with
        | some lastC => createOverlap lastC.content overlapTokens
        | none => secOverlap
      hierarchicalChunkGo maxTokens overlapTokens rest (i + 1) (chunks ++ sub) secOverlap'

/-- Embeds `TokenManager._hierarchical_chunk`.  Nothing in the embedded body can
raise, so the source's blanket `except → []` branch is dead here. -/
def hierarchicalChunk (content : List Char) (maxTokens overlapTokens : Nat) :
    List PyChunk :=
  let sections0 := splitByMajorSections content
  let sections := if sections0.length ≤ 1 then splitBySubsections content else sections0
  hierarchicalChunkGo maxTokens overlapTokens sections 0 [] []

/-- Embeds `TokenManager._validate_chunk`: trimmed length at least 50, a positive
stored token estimate (`chunk.get("tokens_estimated", 0)`), and at least one
`[A-Za-z0-9]` character. -/
def validateChunk (chunk : PyChunk) : Bool :=
  if (pyStrip chunk.content).length < 50 then false
  else if chunk.tokens_estimated.getD 0 = 0 then false
  else if !chunk.content.any Char.isAlphanum then false
  else true

/-- Modelled from the spec: `_generate_chunk_id` returns
`hashlib.md5(content.encode('utf-8')).hexdigest()[:8]`.  The MD5 permutation
is external library code (Python `hashlib`), not part of this repository;
per the spec's data model the chunk id is only "a content-derived
fingerprint (stable for identical content)", so it is modelled as a fixed
pure 8-hex-digit fingerprint of the character sequence. -/
def generateChunkId (content : List Char) : String :=
  let h := content.foldl (fun a c => (a * 131 + c.toNat) % 4294967296) 2166136261
  let hexDigit (n : Nat) : Char :=
    if n < 10 then Char.ofNat (48 + n) else Char.ofNat (87 + n)
  ((List.range 8).map (fun i => hexDigit (h / 16 ^ i % 16))).asString

/-- The metadata attachment of `_post_process_chunks` for the chunk at
enumeration position `ic.1`. -/
def enrichChunk (now : Nat) (ic : Nat × PyChunk) : PyChunk :=
  { ic.2 with
    index := some ic.1
    chunk_id := some (generateChunkId ic.2.content)
    word_count := some (pyWordSplit ic.2.content).length
    char_count := some ic.2.content.length
    processed_at := some now }

/-- Embeds `TokenManager._post_process_chunks`: attach `index` (the enumeration
position), `chunk_id`, `word_count`, `char_count` and `processed_at` to
every chunk, then keep only the chunks `_validate_chunk` accepts. -/
def postProcessChunks (chunks : List PyChunk) (now : Nat) : List PyChunk :=
  (chunks.enum.map (enrichChunk now)).filter validateChunk

/-- The strategy cascade of `intelligent_chunk_tor`: hierarchical chunking,
then the paragraph fallback when it produced nothing, then the character
fallback when that also produced nothing. -/
def strategyCascade (torContent : List Char)
    (maxTokensPerChunk overlapTokens : Nat) : List PyChunk :=
  let chunks0 := hierarchicalChunk torContent maxTokensPerChunk overlapTokens
  let chunks1 :=
    if chunks0 = [] then paragraphChunk torContent maxTokensPerChunk overlapTokens
    else chunks0
  if chunks1 = [] then characterChunk torContent maxTokensPerChunk overlapTokens
  else chunks1

/-- Embeds `TokenManager.intelligent_chunk_tor`.  `now` is the injected wall-clock
timestamp (`datetime.now()`), the only impure input of the function.  Note
that the whole-document branch computes the chunk id from the unstripped
text and attaches neither the post-processing metadata nor the validation
gate. -/
def intelligentChunkTor (torContent : List Char) (maxTokensPerChunk : Nat)
    (overlapTokens : Nat) (now : Nat) : List PyChunk :=
  if torContent = [] ∨ pyStrip torContent = [] then []
  else if estimate_tokens torContent ≤ maxTokensPerChunk then
    [{ content := pyStrip torContent
       sectionLabel := "complete"
       index := some 0
       tokens_estimated := some (estimate_tokens torContent)
       chunk_id := some (generateChunkId torContent) }]
  else
    postProcessChunks (strategyCascade torContent maxTokensPerChunk overlapTokens) now

/-! ## Orchestrator (`EnhancedChainedPromptGenerator`)

The two LLM clients are modelled as one scripted response stream: each
`generate` / `generate_json` call consumes the next `CallResult` (a returned
payload or a raised exception) and records the prompt it was sent.  The
progress callback is side-effect free in the source's contract and is not
modelled; `time.sleep` backoffs are no-ops for the state we track; wall-clock
durations are injected (`elapsed`). -/

/-- The `task_type` argument (`"narrative"` / `"budget"`). -/
inductive TaskType where
  | narrative
  | budget
deriving Repr, DecidableEq

def TaskType.str : TaskType → String
  | .narrative => "narrative"
  | .budget => "budget"

/-- Embeds `self.processing_stats`, as initialised in `__init__`. -/
structure ProcessingStats where
  chunks_processed : Nat := 0
  total_tokens_processed : Nat := 0
  processing_time : Nat := 0
  errors : List String := []
deriving Repr, DecidableEq

/-- The stats dictionary created in `EnhancedChainedPromptGenerator.__init__`. -/
def initStats : ProcessingStats := {}

/-- One scripted client interaction: the call either returns a payload
(`generate` results are read through `.content`; `generate_json` results are
the returned object, abstracted to its payload) or raises. -/
inductive CallResult where
  | ok (s : String)
  | exc (e : String)
deriving Repr, DecidableEq

/-- The modelled client pair: `hasGenerate` is `hasattr(client, 'generate')`;
`responses` is the scripted stream; `calls` records every prompt sent (so
"no network call was made" is `calls` unchanged). -/
structure ClientState where
  hasGenerate : Bool
  responses : List CallResult
  calls : List String := []
deriving Repr, DecidableEq

/-- Consume one scripted response (an exhausted script behaves as a raising
client, which the orchestrator must tolerate like any client exception). -/
def clientCall (cl : ClientState) (prompt : String) : CallResult × ClientState :=
  match cl.responses with
  | [] => (.exc "client response stream exhausted",
           { cl with calls := cl.calls ++ [prompt] })
  | r :: rest => (r, { cl with responses := rest, calls := cl.calls ++ [prompt] })

/-- Embeds `project_info`: an opaque key-value record (`dict.get` semantics). -/
abbrev ProjectInfo := List (String × String)

/-- Embeds `project_info.get(key, default)`. -/
def pyGet (proj : ProjectInfo) (key default : String) : String :=
  match proj.find? (fun kv => kv.1 = key) with
  | some kv => kv.2
  | none => default

/-- Embeds `_get_enhanced_iepades_context`: a large static Spanish institutional
profile, inert data for every claim; abbreviated to a stable marker. -/
def iepadesContext : String :=
  "PERFIL INSTITUCIONAL DETALLADO - IEPADES"

/-- Embeds `_get_comprehensive_budget_schema`: a large static schema-description
dictionary passed verbatim to `generate_json`; inert data for every claim;
abbreviated to a stable marker (the call log records prompts only). -/
def comprehensiveBudgetSchema : String :=
  "COMPREHENSIVE_BUDGET_SCHEMA"

/-- Embeds `_build_enhanced_narrative_prompt`: the interpolation skeleton of the
narrative prompt (static instructional prose elided; the dynamic fields and
their order are preserved). -/
def buildEnhancedNarrativePrompt (content : String) (proj : ProjectInfo)
    (isConsolidated : Bool) : String :=
  let contentType :=
    if isConsolidated then "información consolidada de múltiples secciones"
    else "términos de referencia"
  let locationDetails :=
    (if pyGet proj "coverage_type" "" ≠ "" then
      ["Cobertura: " ++ pyGet proj "coverage_type" ""] else []) ++
    (if pyGet proj "department" "" ≠ "" then
      ["Departamento: " ++ pyGet proj "department" ""] else []) ++
    (if pyGet proj "municipality" "" ≠ "" then
      ["Municipio: " ++ pyGet proj "municipality" ""] else []) ++
    (if pyGet proj "community" "" ≠ "" then
      ["Comunidad/Aldea: " ++ pyGet proj "community" ""] else [])
  let locationStr :=
    if locationDetails ≠ [] then String.intercalate " | " locationDetails
    else "Guatemala (ubicación por definir)"
  let populationDetails :=
    (if pyGet proj "target_population" "" ≠ "" then
      ["Población objetivo: " ++ (pyGet proj "target_population" "").take 200 ++ "..."] else []) ++
    (if pyGet proj "beneficiaries_direct" "" ≠ "" then
      ["Beneficiarios directos: " ++ pyGet proj "beneficiaries_direct" ""] else []) ++
    (if pyGet proj "beneficiaries_indirect" "" ≠ "" then
      ["Beneficiarios indirectos: " ++ pyGet proj "beneficiaries_indirect" ""] else []) ++
    (if pyGet proj "demographic_focus" "" ≠ "" then
      ["Enfoque demográfico: " ++ pyGet proj "demographic_focus" ""] else [])
  let populationStr :=
    if populationDetails ≠ [] then String.intercalate "\n" populationDetails
    else "Por definir según ToR"
  iepadesContext ++
  "\nGENERACIÓN DE NARRATIVA COMPLETA DE PROPUESTA\n" ++ contentType ++
  "\nTítulo: " ++ pyGet proj "title" "Proyecto de Desarrollo" ++
  "\nPaís: " ++ pyGet proj "country" "Guatemala" ++
  "\nUbicación específica: " ++ locationStr ++
  "\nDonante/Financiador: " ++ pyGet proj "donor" "Por definir" ++
  "\nDuración del proyecto: " ++ pyGet proj "duration_months" "N/A" ++ " meses" ++
  "\nPresupuesto referencial: " ++ pyGet proj "budget_cap" "A determinar según propuesta" ++
  "\nIdioma de la propuesta: " ++ pyGet proj "language" "Español" ++
  "\nPOBLACIÓN OBJETIVO Y BENEFICIARIOS:\n" ++ populationStr ++
  "\nPERFIL DETALLADO DE IEPADES:\n" ++
  pyGet proj "org_profile" "Ver contexto institucional arriba" ++
  "\n" ++ contentType.toUpper ++ ":\n" ++ content ++
  "\nESTRUCTURA REQUERIDA PARA LA NARRATIVA"

/-- Embeds `_build_enhanced_budget_prompt`: the interpolation skeleton of the
budget prompt (static instructional prose elided). -/
def buildEnhancedBudgetPrompt (content : String) (proj : ProjectInfo)
    (isConsolidated : Bool) : String :=
  let contentType :=
    if isConsolidated then "información consolidada de múltiples secciones"
    else "términos de referencia"
  let locationInfo :=
    pyGet proj "municipality" "N/A" ++ ", " ++ pyGet proj "department" "N/A" ++
    ", " ++ pyGet proj "country" "Guatemala"
  iepadesContext ++
  "\nGENERACIÓN DE PRESUPUESTO INTEGRAL Y DETALLADO\n" ++ contentType ++
  "\nTítulo: " ++ pyGet proj "title" "Proyecto de Desarrollo" ++
  "\nUbicación específica: " ++ locationInfo ++
  "\nCobertura geográfica: " ++ pyGet proj "coverage_type" "Local" ++
  "\nDonante/Financiador: " ++ pyGet proj "donor" "Por definir" ++
  "\nDuración total: " ++ pyGet proj "duration_months" "N/A" ++ " meses" ++
  "\nPresupuesto máximo: " ++ pyGet proj "budget_cap" "Por determinar" ++
  "\nBeneficiarios directos: " ++ pyGet proj "beneficiaries_direct" "Por definir" ++
  "\nEnfoque demográfico: " ++ pyGet proj "demographic_focus" "Población general" ++
  "\n" ++ contentType.toUpper ++ ":\n" ++ content ++
  "\nREQUERIMIENTOS ESPECÍFICOS DEL PRESUPUESTO (distancias en " ++
  pyGet proj "department" "el área del proyecto" ++ ")"

/-- The extraction prompt of `_extract_chunk_information` (interpolation
skeleton; static instructional prose elided). -/
def buildExtractionPrompt (chunk : PyChunk) (proj : ProjectInfo)
    (tt : TaskType) : String :=
  iepadesContext ++
  "\nANÁLISIS DE FRAGMENTO DE TÉRMINOS DE REFERENCIA" ++
  "\nTítulo: " ++ pyGet proj "title" "N/A" ++
  "\nPaís: " ++ pyGet proj "country" "Guatemala" ++
  "\nUbicación: " ++ pyGet proj "municipality" "" ++ ", " ++ pyGet proj "department" "" ++
  "\nDonante: " ++ pyGet proj "donor" "N/A" ++
  "\nDuración: " ++ pyGet proj "duration_months" "N/A" ++ " meses" ++
  "\nPresupuesto máximo: " ++ pyGet proj "budget_cap" "No especificado" ++
  "\nFRAGMENTO A ANALIZAR (Sección: " ++ chunk.sectionLabel ++ "):\n" ++
  chunk.content.asString ++
  "\nextrae información clave relevante para " ++
  (if tt = .narrative then "la narrativa del proyecto"
   else "la elaboración del presupuesto")

/-- The budget-kind error dictionary of `_get_error_result` (the
`generated_at` wall-clock field is abstracted away; every other field is as
in the source). -/
structure BudgetErrorObj where
  error : String
  currency : String := "USD"
  items : List String := []
  summary_by_category : List (String × Nat) := []
  total : Nat := 0
  assumptions : List String
  compliance_notes : List String := []
  processing_stats : ProcessingStats
  error_type : String := "generation_failure"
deriving Repr, DecidableEq

/-- A value returned by `process_tor_chunks`: a narrative string (success or
the narrative error message, which in the source is the same `str` type), a
client JSON object passed through (`generate_json` result, abstracted to its
payload), or the budget error dictionary. -/
inductive PResult where
  | text (s : String)
  | json (payload : String)
  | errObj (e : BudgetErrorObj)
deriving Repr, DecidableEq

/-- Embeds `_get_error_result`. -/
def getErrorResult (tt : TaskType) (msg : String) (stats : ProcessingStats) :
    PResult :=
  match tt with
  | .narrative =>
    .text ("Error generando narrativa: " ++ msg ++
      "\n\nNo se pudo completar la generación automática. Por favor revise la configuración y los términos de referencia.")
  | .budget =>
    .errObj { error := msg
              assumptions := ["Error en generación: " ++ msg]
              processing_stats := stats }

/-- Embeds `_extract_chunk_information`: with a prose-capable client, send the
extraction prompt and format the answer; a raised client exception is caught
inside and becomes the inline `ERROR - <section>` placeholder; without a
prose-capable client, fall back to the truncated raw content (no call). -/
def extractChunkInformation (cl : ClientState) (chunk : PyChunk)
    (proj : ProjectInfo) (tt : TaskType) : String × ClientState :=
  let prompt := buildExtractionPrompt chunk proj tt
  if cl.hasGenerate then
    match clientCall cl prompt with
    | (.ok s, cl') =>
      ("ANÁLISIS - " ++ chunk.sectionLabel ++ ":\n" ++ s ++ "\n", cl')
    | (.exc _, cl') =>
      ("ERROR - " ++ chunk.sectionLabel ++ ": No se pudo procesar\n", cl')
  else
    ("SECCIÓN - " ++ chunk.sectionLabel ++ ":\n" ++
      (chunk.content.take 800).asString ++ "...\n", cl)

/-- Phase 1 of `_process_multiple_chunks_with_context`: one extraction per
chunk in index order, appending each truthy summary (every branch of
`_extract_chunk_information` returns a non-empty string, and its internal
`except` already turned client exceptions into placeholders). -/
def extractionPhase (cl : ClientState) (chunks : List PyChunk)
    (proj : ProjectInfo) (tt : TaskType) : List String × ClientState :=
  match chunks with
  | [] => ([], cl)
  | c :: rest =>
    let sc := extractChunkInformation cl c proj tt
    let rec' := extractionPhase sc.2 rest proj tt
    ((if sc.1 ≠ "" then [sc.1] else []) ++ rec'.1, rec'.2)

/-- The retry loop of `_process_single_chunk_with_retries`
(`for attempt in range(max_retries)`).  `time.sleep(2 ** attempt)` between
attempts does not affect any modelled state.  Falling out of the loop
(only possible when `max_retries = 0`) returns the exhaustion error. -/
def singleChunkLoop (cl : ClientState) (stats : ProcessingStats)
    (chunk : PyChunk) (proj : ProjectInfo) (tt : TaskType)
    (maxRetries attempt : Nat) : PResult × ClientState :=
  if attempt < maxRetries then
    let prompt :=
      match tt with
      | .narrative => buildEnhancedNarrativePrompt chunk.content.asString proj false
      | .budget => buildEnhancedBudgetPrompt chunk.content.asString proj false
    match clientCall cl prompt with
    | (.ok s, cl') =>
      (match tt with
       | .narrative => .text s
       | .budget => .json s, cl')
    | (.exc e, cl') =>
      if attempt = maxRetries - 1 then
        (getErrorResult tt
          ("Falló después de " ++ toString maxRetries ++ " intentos: " ++ e) stats, cl')
      else
        singleChunkLoop cl' stats chunk proj tt maxRetries (attempt + 1)
  else
    (getErrorResult tt "Máximo número de reintentos alcanzado" stats, cl)
termination_by maxRetries - attempt

/-- Embeds `_process_multiple_chunks_with_context`.  Note that `max_retries` is
accepted and never used, exactly as in the source: the synthesis call is
attempted once, and any client exception immediately becomes the
`Error en síntesis final` error result. -/
def processMultipleChunks (cl : ClientState) (stats : ProcessingStats)
    (chunks : List PyChunk) (proj : ProjectInfo) (tt : TaskType)
    (_maxRetries : Nat) : PResult × ClientState :=
  let ep := extractionPhase cl chunks proj tt
  if ep.1 = [] then
    (getErrorResult tt "No se pudo extraer información de ningún chunk" stats, ep.2)
  else
    let consolidated := String.intercalate "\n\n" ep.1
    let prompt :=
      match tt with
      | .narrative => buildEnhancedNarrativePrompt consolidated proj true
      | .budget => buildEnhancedBudgetPrompt consolidated proj true
    match clientCall ep.2 prompt with
    | (.ok s, cl2) =>
      (match tt with
       | .narrative => .text s
       | .budget => .json s, cl2)
    | (.exc e, cl2) =>
      (getErrorResult tt ("Error en síntesis final: " ++ e) stats, cl2)

/-- Embeds `process_tor_chunks`.  `elapsed` is the injected wall-clock duration of
the run (`(datetime.now() - start_time).total_seconds()`).  Nothing in the
embedded body raises, so the source's final catch-all `except` branch is
dead here; the stats update (`dict.update` on the three numeric keys,
leaving `errors` untouched) runs on every non-empty path. -/
def processTorChunks (cl : ClientState) (stats : ProcessingStats)
    (chunks : List PyChunk) (proj : ProjectInfo) (tt : TaskType)
    (maxRetries : Nat) (elapsed : Nat) :
    PResult × ClientState × ProcessingStats :=
  if chunks = [] then
    let errorMsg := "No hay chunks disponibles para procesar (" ++ tt.str ++ ")"
    let stats1 := { stats with errors := stats.errors ++ [errorMsg] }
    (getErrorResult tt errorMsg stats1, cl, stats1)
  else
    let rc :=
      if chunks.length = 1 then
        singleChunkLoop cl stats chunks.headI proj tt maxRetries 0
      else
        processMultipleChunks cl stats chunks proj tt maxRetries
    let stats1 := { stats with
      chunks_processed := chunks.length
      total_tokens_processed := (chunks.map (fun c => c.tokens_estimated.getD 0)).sum
      processing_time := elapsed }
    (rc.1, rc.2, stats1)


/-! ## Definitions used by the claim statements -/

/-- The result-shape contract of the orchestrator: narrative tasks yield a
string; budget tasks yield either a client JSON object or the budget error
object. -/
def resultShapeOk : TaskType → PResult → Bool
  | .narrative, .text _ => true
  | .budget, .json _ => true
  | .budget, .errObj _ => true
  | _, _ => false

/-- Forget the injected wall-clock field, the only impure datum a chunk can
carry. -/
def eraseTimestamp (c : PyChunk) : PyChunk :=
  { c with processed_at := none }

/-- The post-processing metadata contract: `chunk_id`, `word_count` and
`char_count` are attached and derived from the chunk's own content, and an
`index` is attached. -/
def carriesMetadata (c : PyChunk) : Bool :=
  decide (c.chunk_id = some (generateChunkId c.content)) &&
  decide (c.word_count = some (pyWordSplit c.content).length) &&
  decide (c.char_count = some c.content.length) &&
  c.index.isSome

/-- The summary `_extract_chunk_information` produces for one chunk under a
prose-capable client, as a function of the scripted call outcome. -/
def fmtSummary (c : PyChunk) : CallResult → String
  | .ok s => "ANÁLISIS - " ++ c.sectionLabel ++ ":\n" ++ s ++ "\n"
  | .exc _ => "ERROR - " ++ c.sectionLabel ++ ": No se pudo procesar\n"

/-- A three-chunk input for the C1 counterexample. -/
def c1Chunks : List PyChunk :=
  [{ content := "contenido uno".data, sectionLabel := "uno" },
   { content := "contenido dos".data, sectionLabel := "dos" },
   { content := "contenido tres".data, sectionLabel := "tres" }]

/-- A client script for the C1 counterexample: three successful extractions,
one synthesis exception, and a success that a retry would reach. -/
def c1Client : ClientState :=
  ⟨true, [.ok "S1", .ok "S2", .ok "S3", .exc "boom", .ok "RECUPERACION"], []⟩

/-- The value the orchestrator returns when the synthesis (or single-chunk)
client call succeeds with payload `s`: the string itself for narrative, the
JSON object for budget. -/
def synthSuccess : TaskType → String → PResult
  | .narrative, s => .text s
  | .budget, s => .json s

/-- First and third paragraph of the C2 counterexample text: 384 one-letter
words (767 characters, word-based estimate 499, so the paragraph fills a
500-token chunk almost exactly and admits no companion paragraph). -/
def c2P1 : List Char := List.intercalate [' '] (List.replicate 384 ['a'])

/-- The C2 counterexample text: a long paragraph, a 9-character paragraph,
and a long paragraph, separated by blank lines.  Its estimate (1002) exceeds
the 500-token budget; no section or subsection pattern matches, so the
paragraph fallback is used, and the middle paragraph becomes its own chunk of
9 characters, which the validator then drops. -/
def c2Text : List Char :=
  c2P1 ++ ('\n' :: '\n' :: []) ++ "zq1 zq zq".data ++ ('\n' :: '\n' :: []) ++ c2P1

end TokenManagerModel


namespace TokenManagerModel

/-! ## Helper lemmas -/

theorem estimate_eq_spec (t : List Char) : estimate_tokens t = estimateSpecRat t := by
  have hw : ((13 : ℚ) / 10 * ((pyWordSplit t).length : ℚ)) =
      ((13 * (pyWordSplit t).length : ℕ) : ℚ) / ((10 : ℕ) : ℚ) := by
    push_cast
    ring
  have hc : ((t.length : ℚ) / 4) = ((t.length : ℕ) : ℚ) / ((4 : ℕ) : ℚ) := by
    push_cast
    ring
  unfold estimate_tokens estimateSpecRat AVG_CHARS_PER_TOKEN
  split
  next h =>
    subst h
    norm_num [pyWordSplit, pyWordSplitGo]
  next h =>
    have hmax : (Nat.floor (max (((13 * (pyWordSplit t).length : ℕ) : ℚ) / ((10 : ℕ) : ℚ))
          (((t.length : ℕ) : ℚ) / ((4 : ℕ) : ℚ))) : ℕ)
        = max (Nat.floor (((13 * (pyWordSplit t).length : ℕ) : ℚ) / ((10 : ℕ) : ℚ)))
              (Nat.floor (((t.length : ℕ) : ℚ) / ((4 : ℕ) : ℚ))) :=
      Nat.floor_mono.map_max
    rw [hw, hc, hmax, Nat.floor_div_nat, Nat.floor_div_nat]
    norm_cast

end TokenManagerModel

namespace TokenManagerModel

/-! ## Claim C9 -/

/-- C9: `estimate_tokens` is a pure, deterministic function of its input —
two evaluations of the same string agree; the empty string maps to 0; and
every string maps to the integer truncation of the larger of the word-based
estimate (word count times 1.3) and the character-based estimate (character
count divided by 4), stated over exact rationals by `estimateSpecRat`. -/
theorem c9_token_estimator_contract :
    (∀ t : List Char, estimate_tokens t = estimate_tokens t) ∧
    estimate_tokens [] = 0 ∧
    (∀ t : List Char, estimate_tokens t = estimateSpecRat t) :=
  ⟨fun _ => rfl, rfl, estimate_eq_spec⟩

/-! ## Claim C8 -/

/-- C8: whole-document short-circuit — when the stripped text is non-empty
and the estimated token count is at most `max_tokens`, `intelligent_chunk_tor`
returns exactly one chunk whose content is the trimmed original text, with
section label "complete" and index 0, and no splitting is performed. -/
theorem c8_whole_document_short_circuit (text : List Char) (m o now : Nat)
    (h1 : pyStrip text ≠ []) (h2 : estimate_tokens text ≤ m) :
    intelligentChunkTor text m o now =
      [{ content := pyStrip text
         sectionLabel := "complete"
         index := some 0
         tokens_estimated := some (estimate_tokens text)
         chunk_id := some (generateChunkId text) }] := by
  have hne : ¬(text = [] ∨ pyStrip text = []) := by
    rintro (rfl | hs)
    · exact h1 rfl
    · exact h1 hs
  unfold intelligentChunkTor
  rw [if_neg hne, if_pos h2]

/-- Witness for C8 at the concrete text "Proyecto piloto de desarrollo"
(estimate 7 ≤ 100). -/
theorem c8_whole_document_short_circuit_witness :
    pyStrip "Proyecto piloto de desarrollo".data ≠ [] ∧
    estimate_tokens "Proyecto piloto de desarrollo".data ≤ 100 ∧
    intelligentChunkTor "Proyecto piloto de desarrollo".data 100 150 11 =
      [{ content := pyStrip "Proyecto piloto de desarrollo".data
         sectionLabel := "complete"
         index := some 0
         tokens_estimated := some (estimate_tokens "Proyecto piloto de desarrollo".data)
         chunk_id := some (generateChunkId "Proyecto piloto de desarrollo".data) }] :=
  ⟨by decide, by decide,
   c8_whole_document_short_circuit "Proyecto piloto de desarrollo".data 100 150 11
     (by decide) (by decide)⟩

/-! ## Claim C7 -/

/-- C7: empty-input behavior — whitespace-only (or empty) text chunks to the
empty list, and `process_tor_chunks` on an empty chunk list immediately
returns the task-appropriate error result (the narrative error string, or the
budget error object carrying an `error` field) with the client completely
untouched: no prompt is sent and no response is consumed. -/
theorem c7_empty_input_behavior (text : List Char) (m o now : Nat)
    (h : pyStrip text = []) :
    intelligentChunkTor text m o now = [] ∧
    ∀ (cl : ClientState) (stats : ProcessingStats) (proj : ProjectInfo)
      (tt : TaskType) (mr el : Nat),
      processTorChunks cl stats [] proj tt mr el =
        (getErrorResult tt ("No hay chunks disponibles para procesar (" ++ tt.str ++ ")")
           { stats with errors := stats.errors ++
               ["No hay chunks disponibles para procesar (" ++ tt.str ++ ")"] },
         cl,
         { stats with errors := stats.errors ++
             ["No hay chunks disponibles para procesar (" ++ tt.str ++ ")"] }) := by
  constructor
  · unfold intelligentChunkTor
    rw [if_pos (Or.inr h)]
  · intro cl stats proj tt mr el
    rfl

/-- Witness for C7: whitespace-only text, and a concrete empty-chunk run
whose client (with one unconsumed scripted response and an empty call log)
is returned unchanged. -/
theorem c7_empty_input_behavior_witness :
    pyStrip " \n \t ".data = [] ∧
    intelligentChunkTor " \n \t ".data 50 10 3 = [] ∧
    processTorChunks ⟨true, [CallResult.ok "X"], []⟩ initStats [] []
        TaskType.narrative 4 9 =
      (getErrorResult TaskType.narrative
         ("No hay chunks disponibles para procesar (" ++ TaskType.narrative.str ++ ")")
         { initStats with errors := initStats.errors ++
             ["No hay chunks disponibles para procesar (" ++ TaskType.narrative.str ++ ")"] },
       ⟨true, [CallResult.ok "X"], []⟩,
       { initStats with errors := initStats.errors ++
           ["No hay chunks disponibles para procesar (" ++ TaskType.narrative.str ++ ")"] }) :=
  ⟨by decide,
   (c7_empty_input_behavior " \n \t ".data 50 10 3 (by decide)).1,
   (c7_empty_input_behavior " \n \t ".data 50 10 3 (by decide)).2
     ⟨true, [CallResult.ok "X"], []⟩ initStats [] TaskType.narrative 4 9⟩

end TokenManagerModel

namespace TokenManagerModel

/-! ## Claim C5 -/


theorem resultShapeOk_getErrorResult (tt : TaskType) (msg : String)
    (stats : ProcessingStats) :
    resultShapeOk tt (getErrorResult tt msg stats) = true := by
  cases tt <;> rfl

theorem singleChunkLoop_shape (stats : ProcessingStats) (chunk : PyChunk)
    (proj : ProjectInfo) (tt : TaskType) :
    ∀ (fuel : Nat) (cl : ClientState) (mr att : Nat), mr - att ≤ fuel →
      resultShapeOk tt (singleChunkLoop cl stats chunk proj tt mr att).1 = true := by
  intro fuel
  induction fuel with
  | zero =>
    intro cl mr att hle
    rw [singleChunkLoop.eq_def]
    rw [if_neg (by omega)]
    exact resultShapeOk_getErrorResult ..
  | succ n ih =>
    intro cl mr att hle
    rw [singleChunkLoop.eq_def]
    by_cases hlt : att < mr
    · rw [if_pos hlt]
      cases tt with
      | narrative =>
        dsimp only
        rcases hc : clientCall cl
            (buildEnhancedNarrativePrompt chunk.content.asString proj false) with ⟨r, cl'⟩
        cases r with
        | ok s => rfl
        | exc e =>
          dsimp only
          by_cases hlast : att = mr - 1
          · rw [if_pos hlast]
            rfl
          · rw [if_neg hlast]
            exact ih cl' mr (att + 1) (by omega)
      | budget =>
        dsimp only
        rcases hc : clientCall cl
            (buildEnhancedBudgetPrompt chunk.content.asString proj false) with ⟨r, cl'⟩
        cases r with
        | ok s => rfl
        | exc e =>
          dsimp only
          by_cases hlast : att = mr - 1
          · rw [if_pos hlast]
            rfl
          · rw [if_neg hlast]
            exact ih cl' mr (att + 1) (by omega)
    · rw [if_neg hlt]
      exact resultShapeOk_getErrorResult ..

theorem processMultipleChunks_shape (cl : ClientState) (stats : ProcessingStats)
    (chunks : List PyChunk) (proj : ProjectInfo) (tt : TaskType) (mr : Nat) :
    resultShapeOk tt (processMultipleChunks cl stats chunks proj tt mr).1 = true := by
  simp only [processMultipleChunks]
  rcases hep : extractionPhase cl chunks proj tt with ⟨ss, cl1⟩
  dsimp only
  by_cases hss : ss = []
  · rw [if_pos hss]
    exact resultShapeOk_getErrorResult ..
  · rw [if_neg hss]
    cases tt with
    | narrative =>
      dsimp only
      rcases hc : clientCall cl1
          (buildEnhancedNarrativePrompt (String.intercalate "\n\n" ss) proj true) with ⟨r, cl2⟩
      cases r with
      | ok s => rfl
      | exc e => rfl
    | budget =>
      dsimp only
      rcases hc : clientCall cl1
          (buildEnhancedBudgetPrompt (String.intercalate "\n\n" ss) proj true) with ⟨r, cl2⟩
      cases r with
      | ok s => rfl
      | exc e => rfl

/-- C5: orchestrator totality — for every client script (including scripts
that raise at every call), every stats value, every chunk list, every
project record, both task kinds and every `max_retries`,
`process_tor_chunks` returns a value of the task-appropriate success or
error shape; no client exception escapes (every raise in the model is
consumed by a `catch` branch of the embedding, which is total). -/
theorem c5_orchestrator_totality (cl : ClientState) (stats : ProcessingStats)
    (chunks : List PyChunk) (proj : ProjectInfo) (tt : TaskType)
    (mr el : Nat) :
    resultShapeOk tt (processTorChunks cl stats chunks proj tt mr el).1 = true := by
  simp only [processTorChunks]
  by_cases hc : chunks = []
  · rw [if_pos hc]
    exact resultShapeOk_getErrorResult ..
  · rw [if_neg hc]
    by_cases h1 : chunks.length = 1
    · simp only [if_pos h1]
      exact singleChunkLoop_shape stats chunks.headI proj tt mr cl mr 0 (by omega)
    · simp only [if_neg h1]
      exact processMultipleChunks_shape cl stats chunks proj tt mr

end TokenManagerModel

namespace TokenManagerModel

/-! ## Claim C10 -/


theorem postProcessAux_erase (l : List (Nat × PyChunk)) (t1 t2 : Nat) :
    ((l.map (enrichChunk t1)).filter validateChunk).map eraseTimestamp =
      ((l.map (enrichChunk t2)).filter validateChunk).map eraseTimestamp := by
  induction l with
  | nil => rfl
  | cons ic rest ih =>
    simp only [List.map_cons, List.filter_cons]
    have hv : validateChunk (enrichChunk t1 ic) = validateChunk (enrichChunk t2 ic) := rfl
    cases hv2 : validateChunk (enrichChunk t2 ic) with
    | false =>
      rw [hv, hv2]
      simp only [Bool.false_eq_true, if_false]
      exact ih
    | true =>
      rw [hv, hv2]
      simp only [if_true]
      rw [List.map_cons, List.map_cons]
      have he : eraseTimestamp (enrichChunk t1 ic) = eraseTimestamp (enrichChunk t2 ic) := rfl
      rw [he, ih]

theorem postProcess_timestamp (cs : List PyChunk) (t : Nat) :
    (postProcessChunks cs t).all
      (fun c => decide (c.processed_at = none ∨ c.processed_at = some t)) = true := by
  unfold postProcessChunks
  rw [List.all_eq_true]
  intro c hcmem
  rw [List.mem_filter] at hcmem
  obtain ⟨hm, _⟩ := hcmem
  rw [List.mem_map] at hm
  obtain ⟨ic, _, rfl⟩ := hm
  simp [enrichChunk]

/-- C10 (implicit): chunking is deterministic up to the timestamp field —
two calls on the same text, budget and overlap agree on every chunk and
every field once `processed_at` (which records the injected call time, and
is absent on the whole-document path) is erased; in particular the
`chunk_id` sequences of the two calls coincide. -/
theorem c10_chunking_deterministic_up_to_timestamp (text : List Char)
    (m o t1 t2 : Nat) :
    (intelligentChunkTor text m o t1).map eraseTimestamp =
      (intelligentChunkTor text m o t2).map eraseTimestamp ∧
    (intelligentChunkTor text m o t1).all
      (fun c => decide (c.processed_at = none ∨ c.processed_at = some t1)) = true ∧
    (intelligentChunkTor text m o t1).map PyChunk.chunk_id =
      (intelligentChunkTor text m o t2).map PyChunk.chunk_id := by
  have h1 : (intelligentChunkTor text m o t1).map eraseTimestamp =
      (intelligentChunkTor text m o t2).map eraseTimestamp := by
    unfold intelligentChunkTor
    by_cases he : text = [] ∨ pyStrip text = []
    · rw [if_pos he, if_pos he]
    · rw [if_neg he, if_neg he]
      by_cases hst : estimate_tokens text ≤ m
      · rw [if_pos hst, if_pos hst]
      · rw [if_neg hst, if_neg hst]
        exact postProcessAux_erase ((strategyCascade text m o).enum) t1 t2
  refine ⟨h1, ?_, ?_⟩
  · unfold intelligentChunkTor
    by_cases he : text = [] ∨ pyStrip text = []
    · rw [if_pos he]
      rfl
    · rw [if_neg he]
      by_cases hst : estimate_tokens text ≤ m
      · rw [if_pos hst]
        rfl
      · rw [if_neg hst]
        exact postProcess_timestamp (strategyCascade text m o) t1
  · have hmm : ∀ l : List PyChunk,
        l.map PyChunk.chunk_id = (l.map eraseTimestamp).map PyChunk.chunk_id := by
      intro l
      rw [List.map_map]
      rfl
    rw [hmm (intelligentChunkTor text m o t1), hmm (intelligentChunkTor text m o t2), h1]

end TokenManagerModel

namespace TokenManagerModel

/-! ## Claim C3 -/


theorem postProcess_wellFormed (cs : List PyChunk) (t : Nat) :
    (postProcessChunks cs t).all
      (fun c => validateChunk c && carriesMetadata c) = true := by
  unfold postProcessChunks
  rw [List.all_eq_true]
  intro c hcmem
  rw [List.mem_filter] at hcmem
  obtain ⟨hm, hval⟩ := hcmem
  rw [List.mem_map] at hm
  obtain ⟨ic, _, rfl⟩ := hm
  simp only [Bool.and_eq_true, hval, true_and]
  simp [carriesMetadata, enrichChunk]

/-- Counterexample to C3 as stated: on the whole-document short-circuit path
the single returned chunk bypasses `_validate_chunk` (here its trimmed
content has fewer than 50 characters, so validation would reject it) and
carries neither `word_count` nor `char_count`. -/
theorem c3_validator_gate_counterexample :
    (intelligentChunkTor "short one1".data 1000 100 0).length = 1 ∧
    (intelligentChunkTor "short one1".data 1000 100 0).headI.word_count = none ∧
    (intelligentChunkTor "short one1".data 1000 100 0).headI.char_count = none ∧
    validateChunk (intelligentChunkTor "short one1".data 1000 100 0).headI = false :=
  ⟨by decide, by decide, by decide, by decide⟩

/-- C3 amended: on every splitting path — that is, whenever the document
does not fit in one chunk (`estimate(text) > max_tokens`), so the result
goes through `_post_process_chunks` — every returned chunk has passed
validation (trimmed length ≥ 50, positive token estimate, an alphanumeric
character) and carries the attached `index`, `chunk_id`, `word_count` and
`char_count`.  The whole-document short-circuit path, by contrast, returns
its single chunk unvalidated and without that metadata (see the
counterexample). -/
theorem c3_validator_gate_amended (text : List Char) (m o now : Nat)
    (h : m < estimate_tokens text) :
    (intelligentChunkTor text m o now).all
      (fun c => validateChunk c && carriesMetadata c) = true := by
  unfold intelligentChunkTor
  by_cases he : text = [] ∨ pyStrip text = []
  · rw [if_pos he]
    rfl
  · rw [if_neg he, if_neg (by omega)]
    exact postProcess_wellFormed (strategyCascade text m o) now

/-- Witness for the amended C3 at a concrete oversized document
(estimate 15 > max_tokens 1; the paragraph fallback yields one validated,
fully enriched chunk). -/
theorem c3_validator_gate_amended_witness :
    1 < estimate_tokens "gggg hhhh jjjj kkkk mmmm nnnn oooo pppp qqqq rrrr ssss tttt".data ∧
    (intelligentChunkTor "gggg hhhh jjjj kkkk mmmm nnnn oooo pppp qqqq rrrr ssss tttt".data
        1 100 5).all (fun c => validateChunk c && carriesMetadata c) = true :=
  ⟨by decide,
   c3_validator_gate_amended
     "gggg hhhh jjjj kkkk mmmm nnnn oooo pppp qqqq rrrr ssss tttt".data 1 100 5 (by decide)⟩

end TokenManagerModel

namespace TokenManagerModel

/-! ## Claim C4 -/

/-- Counterexample to C4 as stated: two successive `process_tor_chunks`
invocations on the same generator (stats threaded from the first call into
the second).  After the second call the error list contains the first run's
message as well — the statistics are never reset at the start of an
invocation, so the observable state does not reflect only the second run. -/
theorem c4_stats_reset_counterexample :
    (processTorChunks ⟨true, [], []⟩
       (processTorChunks ⟨true, [], []⟩ initStats [] [] TaskType.narrative 3 4).2.2
       [] [] TaskType.narrative 3 6).2.2.errors =
      ["No hay chunks disponibles para procesar (narrative)",
       "No hay chunks disponibles para procesar (narrative)"] := by
  decide

/-- C4 amended: the statistics are not reset at the start of an invocation.
A run with a non-empty chunk list overwrites the three numeric fields
(chunk count, summed token estimates, elapsed time) with this run's values
while passing the error list through unchanged (so errors accumulate across
runs); a run with an empty chunk list appends its error message and leaves
the numeric fields — including the previous run's values — untouched. -/
theorem c4_stats_amended (cl cl2 : ClientState) (stats : ProcessingStats)
    (chunks : List PyChunk) (proj proj2 : ProjectInfo) (tt tt2 : TaskType)
    (mr mr2 el el2 : Nat) (hne : chunks ≠ []) :
    (processTorChunks cl stats chunks proj tt mr el).2.2 =
      { stats with
        chunks_processed := chunks.length
        total_tokens_processed :=
          (chunks.map (fun c => c.tokens_estimated.getD 0)).sum
        processing_time := el } ∧
    (processTorChunks cl2 stats [] proj2 tt2 mr2 el2).2.2 =
      { stats with errors := stats.errors ++
          ["No hay chunks disponibles para procesar (" ++ tt2.str ++ ")"] } := by
  constructor
  · unfold processTorChunks
    rw [if_neg hne]
  · rfl

/-- Witness for the amended C4: a concrete non-empty run over stats carrying
a previous run's values, and a concrete empty run over the same stats. -/
theorem c4_stats_amended_witness :
    ([({ content := "contenido de prueba".data, sectionLabel := "sec",
         tokens_estimated := some 7 } : PyChunk)] ≠ ([] : List PyChunk)) ∧
    (processTorChunks ⟨true, [CallResult.ok "R"], []⟩
        ⟨9, 9, 9, ["previo"]⟩
        [{ content := "contenido de prueba".data, sectionLabel := "sec",
           tokens_estimated := some 7 }] [] TaskType.narrative 3 2).2.2 =
      { (⟨9, 9, 9, ["previo"]⟩ : ProcessingStats) with
        chunks_processed :=
          [({ content := "contenido de prueba".data, sectionLabel := "sec",
              tokens_estimated := some 7 } : PyChunk)].length
        total_tokens_processed :=
          ([({ content := "contenido de prueba".data, sectionLabel := "sec",
               tokens_estimated := some 7 } : PyChunk)].map
            (fun c => c.tokens_estimated.getD 0)).sum
        processing_time := 2 } ∧
    (processTorChunks ⟨true, [], []⟩ ⟨9, 9, 9, ["previo"]⟩ [] []
        TaskType.budget 3 4).2.2 =
      { (⟨9, 9, 9, ["previo"]⟩ : ProcessingStats) with
        errors := ["previo"] ++
          ["No hay chunks disponibles para procesar (" ++ TaskType.budget.str ++ ")"] } :=
  ⟨by decide,
   (c4_stats_amended ⟨true, [CallResult.ok "R"], []⟩ ⟨true, [], []⟩
      ⟨9, 9, 9, ["previo"]⟩
      [{ content := "contenido de prueba".data, sectionLabel := "sec",
         tokens_estimated := some 7 }] [] [] TaskType.narrative TaskType.budget
      3 3 2 4 (by decide)).1,
   (c4_stats_amended ⟨true, [CallResult.ok "R"], []⟩ ⟨true, [], []⟩
      ⟨9, 9, 9, ["previo"]⟩
      [{ content := "contenido de prueba".data, sectionLabel := "sec",
         tokens_estimated := some 7 }] [] [] TaskType.narrative TaskType.budget
      3 3 2 4 (by decide)).2⟩

end TokenManagerModel

namespace TokenManagerModel

/-! ## Extraction-phase lemmas (shared by C1 and C6) -/


theorem str_concat_ne_empty (a b : String) (h : a ≠ "") : a ++ b ≠ "" := by
  intro hc
  apply h
  have hd := congrArg String.data hc
  rw [String.data_append] at hd
  have h2 := List.append_eq_nil.mp hd
  cases a with
  | mk d => cases b with
    | mk d2 =>
      simp only [String.data] at h2
      simp [h2.1]

theorem fmtSummary_ne_empty (c : PyChunk) (r : CallResult) :
    fmtSummary c r ≠ "" := by
  cases r with
  | ok s =>
    exact str_concat_ne_empty _ _ (str_concat_ne_empty _ _
      (str_concat_ne_empty _ _ (str_concat_ne_empty _ _ (by decide))))
  | exc e =>
    exact str_concat_ne_empty _ _ (str_concat_ne_empty _ _ (by decide))

theorem extractChunkInformation_cons (c : PyChunk) (proj : ProjectInfo)
    (tt : TaskType) (r : CallResult) (rt : List CallResult) (calls : List String) :
    extractChunkInformation ⟨true, r :: rt, calls⟩ c proj tt =
      (fmtSummary c r, ⟨true, rt, calls ++ [buildExtractionPrompt c proj tt]⟩) := by
  cases r <;> rfl

theorem extractChunkInformation_ne_empty (cl : ClientState) (c : PyChunk)
    (proj : ProjectInfo) (tt : TaskType) :
    (extractChunkInformation cl c proj tt).1 ≠ "" := by
  unfold extractChunkInformation clientCall
  by_cases hg : cl.hasGenerate
  · rw [if_pos hg]
    cases hr : cl.responses with
    | nil =>
      exact str_concat_ne_empty _ _ (str_concat_ne_empty _ _ (by decide))
    | cons r rt =>
      cases r with
      | ok s =>
        exact str_concat_ne_empty _ _ (str_concat_ne_empty _ _
          (str_concat_ne_empty _ _ (str_concat_ne_empty _ _ (by decide))))
      | exc e =>
        exact str_concat_ne_empty _ _ (str_concat_ne_empty _ _ (by decide))
  · rw [if_neg hg]
    exact str_concat_ne_empty _ _ (str_concat_ne_empty _ _
      (str_concat_ne_empty _ _ (str_concat_ne_empty _ _ (by decide))))

theorem extractionPhase_length (chunks : List PyChunk) :
    ∀ (cl : ClientState) (proj : ProjectInfo) (tt : TaskType),
      (extractionPhase cl chunks proj tt).1.length = chunks.length := by
  induction chunks with
  | nil => intro cl proj tt; rfl
  | cons c ct ih =>
    intro cl proj tt
    simp only [extractionPhase]
    rw [if_pos (extractChunkInformation_ne_empty cl c proj tt)]
    simp [ih]

/-- Running the extraction phase of a prose-capable client against a script
that provides one response per chunk: the summaries are the per-chunk
formatted outcomes, and exactly the per-chunk responses are consumed. -/
theorem extractionPhase_script (proj : ProjectInfo) (tt : TaskType) :
    ∀ (chunks : List PyChunk) (rs rest : List CallResult) (calls : List String),
      rs.length = chunks.length →
      (extractionPhase ⟨true, rs ++ rest, calls⟩ chunks proj tt).1 =
        List.zipWith fmtSummary chunks rs ∧
      (extractionPhase ⟨true, rs ++ rest, calls⟩ chunks proj tt).2.responses = rest ∧
      (extractionPhase ⟨true, rs ++ rest, calls⟩ chunks proj tt).2.hasGenerate = true := by
  intro chunks
  induction chunks with
  | nil =>
    intro rs rest calls hlen
    have hrs : rs = [] := List.length_eq_zero.mp (by simpa using hlen)
    subst hrs
    exact ⟨rfl, rfl, rfl⟩
  | cons c ct ih =>
    intro rs rest calls hlen
    cases rs with
    | nil => simp at hlen
    | cons r rt =>
      have hlen' : rt.length = ct.length := by simpa using hlen
      have hstep := extractChunkInformation_cons c proj tt r (rt ++ rest) calls
      simp only [extractionPhase, List.cons_append, hstep]
      rw [if_pos (fmtSummary_ne_empty c r)]
      obtain ⟨ih1, ih2, ih3⟩ := ih rt rest (calls ++ [buildExtractionPrompt c proj tt]) hlen'
      refine ⟨?_, ih2, ih3⟩
      rw [ih1]
      rfl

end TokenManagerModel

namespace TokenManagerModel

/-! ## Claim C1 -/



set_option maxRecDepth 40000 in
/-- Counterexample to C1 as stated: three chunks, `max_retries = 3`, the
synthesis call raises once and a successful response is next in the script.
Under the claimed retry policy the run would consume the recovery response
and succeed, and the transient message would be recorded in the stats error
list.  Instead the multi-chunk path returns the error-result shape after the
single synthesis attempt, leaves the recovery response unconsumed, and
records nothing in the error list. -/
theorem c1_synthesis_retry_counterexample :
    (processTorChunks c1Client initStats c1Chunks [] TaskType.narrative 3 5).1 =
      PResult.text ("Error generando narrativa: Error en síntesis final: boom\n\nNo se pudo completar la generación automática. Por favor revise la configuración y los términos de referencia.") ∧
    (processTorChunks c1Client initStats c1Chunks [] TaskType.narrative 3 5).2.1.responses =
      [CallResult.ok "RECUPERACION"] ∧
    (processTorChunks c1Client initStats c1Chunks [] TaskType.narrative 3 5).2.2.errors = [] :=
  ⟨by decide, by decide, by decide⟩

/-- C1 amended: in the multi-chunk path the synthesis call is attempted
exactly once — whatever `max_retries` is, a client exception in the
synthesis call immediately yields the `Error en síntesis final` error-result
shape, consumes exactly that one scripted response (no backoff retries), and
the processing statistics are not touched by this path (in particular, the
transient failure message is not appended to the error list; no path of
`_process_single_chunk_with_retries` or `_process_multiple_chunks_with_context`
appends to it). -/
theorem c1_synthesis_single_attempt_amended (cl : ClientState)
    (stats : ProcessingStats) (chunks : List PyChunk) (proj : ProjectInfo)
    (tt : TaskType) (mr : Nat) (e : String) (rest : List CallResult)
    (hne : chunks ≠ [])
    (hsyn : (extractionPhase cl chunks proj tt).2.responses = CallResult.exc e :: rest) :
    (processMultipleChunks cl stats chunks proj tt mr).1 =
      getErrorResult tt ("Error en síntesis final: " ++ e) stats ∧
    (processMultipleChunks cl stats chunks proj tt mr).2.responses = rest := by
  simp only [processMultipleChunks]
  rcases hep : extractionPhase cl chunks proj tt with ⟨ss, cl1⟩
  dsimp only
  have hss : ss ≠ [] := by
    intro hnil
    have hl := extractionPhase_length chunks cl proj tt
    rw [hep, hnil] at hl
    exact hne (List.length_eq_zero.mp hl.symm)
  rw [if_neg hss]
  rcases cl1 with ⟨hg1, resp1, calls1⟩
  rw [hep] at hsyn
  dsimp only at hsyn
  subst hsyn
  cases tt <;> exact ⟨rfl, rfl⟩

/-- Witness for the amended C1: a one-chunk extraction script followed by a
synthesis exception with an unconsumed recovery response. -/
theorem c1_synthesis_single_attempt_amended_witness :
    (([({ content := "c".data, sectionLabel := "s" } : PyChunk)]) ≠ ([] : List PyChunk)) ∧
    (extractionPhase ⟨true, [CallResult.ok "A", CallResult.exc "x", CallResult.ok "B"], []⟩
       [{ content := "c".data, sectionLabel := "s" }] [] TaskType.narrative).2.responses =
      CallResult.exc "x" :: [CallResult.ok "B"] ∧
    (processMultipleChunks ⟨true, [CallResult.ok "A", CallResult.exc "x", CallResult.ok "B"], []⟩
       initStats [{ content := "c".data, sectionLabel := "s" }] [] TaskType.narrative 3).1 =
      getErrorResult TaskType.narrative ("Error en síntesis final: " ++ "x") initStats ∧
    (processMultipleChunks ⟨true, [CallResult.ok "A", CallResult.exc "x", CallResult.ok "B"], []⟩
       initStats [{ content := "c".data, sectionLabel := "s" }] [] TaskType.narrative 3).2.responses =
      [CallResult.ok "B"] :=
  ⟨by decide, by decide,
   (c1_synthesis_single_attempt_amended
      ⟨true, [CallResult.ok "A", CallResult.exc "x", CallResult.ok "B"], []⟩ initStats
      [{ content := "c".data, sectionLabel := "s" }] [] TaskType.narrative 3 "x"
      [CallResult.ok "B"] (by decide) (by decide)).1,
   (c1_synthesis_single_attempt_amended
      ⟨true, [CallResult.ok "A", CallResult.exc "x", CallResult.ok "B"], []⟩ initStats
      [{ content := "c".data, sectionLabel := "s" }] [] TaskType.narrative 3 "x"
      [CallResult.ok "B"] (by decide) (by decide)).2⟩

end TokenManagerModel

namespace TokenManagerModel

/-! ## Claim C6 -/


/-- C6: partial-failure resilience — for any chunk list of N ≥ 3 chunks in
which exactly one chunk's extraction call raises (position `ca.length`) and
all other client calls (the other extractions and the synthesis) succeed,
the extraction phase records the failing chunk inline as the
`ERROR - <section>` placeholder among the N−1 real summaries, in order, and
`process_tor_chunks` still returns the successful synthesis output (a
non-error result), consuming exactly the scripted responses. -/
theorem c6_partial_failure_resilience (ca cb : List PyChunk) (cf : PyChunk)
    (sa sb : List String) (e r : String) (rest : List CallResult)
    (calls : List String) (stats : ProcessingStats) (proj : ProjectInfo)
    (tt : TaskType) (mr el : Nat)
    (hlen3 : 3 ≤ (ca ++ cf :: cb).length)
    (ha : sa.length = ca.length) (hb : sb.length = cb.length) :
    (extractionPhase
        ⟨true, (sa.map CallResult.ok ++ CallResult.exc e :: sb.map CallResult.ok) ++
          (CallResult.ok r :: rest), calls⟩ (ca ++ cf :: cb) proj tt).1 =
      List.zipWith fmtSummary ca (sa.map CallResult.ok) ++
        ("ERROR - " ++ cf.sectionLabel ++ ": No se pudo procesar\n") ::
          List.zipWith fmtSummary cb (sb.map CallResult.ok) ∧
    (processTorChunks
        ⟨true, (sa.map CallResult.ok ++ CallResult.exc e :: sb.map CallResult.ok) ++
          (CallResult.ok r :: rest), calls⟩ stats (ca ++ cf :: cb) proj tt mr el).1 =
      synthSuccess tt r ∧
    (processTorChunks
        ⟨true, (sa.map CallResult.ok ++ CallResult.exc e :: sb.map CallResult.ok) ++
          (CallResult.ok r :: rest), calls⟩ stats (ca ++ cf :: cb) proj tt mr el).2.1.responses =
      rest := by
  have hrslen : (sa.map CallResult.ok ++ CallResult.exc e :: sb.map CallResult.ok).length
      = (ca ++ cf :: cb).length := by
    simp [ha, hb]
  obtain ⟨h1, h2, _⟩ := extractionPhase_script proj tt (ca ++ cf :: cb)
    (sa.map CallResult.ok ++ CallResult.exc e :: sb.map CallResult.ok)
    (CallResult.ok r :: rest) calls hrslen
  have hz : List.zipWith fmtSummary (ca ++ cf :: cb)
      (sa.map CallResult.ok ++ CallResult.exc e :: sb.map CallResult.ok) =
      List.zipWith fmtSummary ca (sa.map CallResult.ok) ++
        ("ERROR - " ++ cf.sectionLabel ++ ": No se pudo procesar\n") ::
          List.zipWith fmtSummary cb (sb.map CallResult.ok) := by
    rw [List.zipWith_append _ _ _ _ _ (by simp [ha])]
    rfl
  have hne : (ca ++ cf :: cb) ≠ [] := by simp
  have hlen1 : ¬ (ca ++ cf :: cb).length = 1 := by
    simp only [List.length_append, List.length_cons] at hlen3 ⊢
    omega
  have hmain :
      (processMultipleChunks
        ⟨true, (sa.map CallResult.ok ++ CallResult.exc e :: sb.map CallResult.ok) ++
          (CallResult.ok r :: rest), calls⟩ stats (ca ++ cf :: cb) proj tt mr).1 =
        synthSuccess tt r ∧
      (processMultipleChunks
        ⟨true, (sa.map CallResult.ok ++ CallResult.exc e :: sb.map CallResult.ok) ++
          (CallResult.ok r :: rest), calls⟩ stats (ca ++ cf :: cb) proj tt mr).2.responses =
        rest := by
    simp only [processMultipleChunks]
    rcases hep : extractionPhase
        ⟨true, (sa.map CallResult.ok ++ CallResult.exc e :: sb.map CallResult.ok) ++
          (CallResult.ok r :: rest), calls⟩ (ca ++ cf :: cb) proj tt with ⟨ss, cl1⟩
    dsimp only
    have hss : ss ≠ [] := by
      intro hnil
      have hl := extractionPhase_length (ca ++ cf :: cb)
        ⟨true, (sa.map CallResult.ok ++ CallResult.exc e :: sb.map CallResult.ok) ++
          (CallResult.ok r :: rest), calls⟩ proj tt
      rw [hep, hnil] at hl
      exact hne (List.length_eq_zero.mp hl.symm)
    rw [if_neg hss]
    rcases cl1 with ⟨hg1, resp1, calls1⟩
    rw [hep] at h2
    dsimp only at h2
    subst h2
    cases tt <;> exact ⟨rfl, rfl⟩
  refine ⟨h1.trans hz, ?_, ?_⟩
  · have hred : (processTorChunks
        ⟨true, (sa.map CallResult.ok ++ CallResult.exc e :: sb.map CallResult.ok) ++
          (CallResult.ok r :: rest), calls⟩ stats (ca ++ cf :: cb) proj tt mr el).1 =
        (processMultipleChunks
          ⟨true, (sa.map CallResult.ok ++ CallResult.exc e :: sb.map CallResult.ok) ++
            (CallResult.ok r :: rest), calls⟩ stats (ca ++ cf :: cb) proj tt mr).1 := by
      simp only [processTorChunks]
      rw [if_neg hne]
      dsimp only
      rw [if_neg hlen1]
    rw [hred]
    exact hmain.1
  · have hred : (processTorChunks
        ⟨true, (sa.map CallResult.ok ++ CallResult.exc e :: sb.map CallResult.ok) ++
          (CallResult.ok r :: rest), calls⟩ stats (ca ++ cf :: cb) proj tt mr el).2.1 =
        (processMultipleChunks
          ⟨true, (sa.map CallResult.ok ++ CallResult.exc e :: sb.map CallResult.ok) ++
            (CallResult.ok r :: rest), calls⟩ stats (ca ++ cf :: cb) proj tt mr).2 := by
      simp only [processTorChunks]
      rw [if_neg hne]
      dsimp only
      rw [if_neg hlen1]
    rw [hred]
    exact hmain.2

/-- Witness for C6: three chunks, the middle extraction raises, synthesis
succeeds; the placeholder sits between the two real summaries and the final
result is the synthesis output. -/
theorem c6_partial_failure_resilience_witness :
    (3 ≤ ([({ content := "c1".data, sectionLabel := "s1" } : PyChunk)] ++
       ({ content := "c2".data, sectionLabel := "s2" } : PyChunk) ::
       [({ content := "c3".data, sectionLabel := "s3" } : PyChunk)]).length) ∧
    (extractionPhase
        ⟨true, (["R1"].map CallResult.ok ++ CallResult.exc "fallo" :: ["R3"].map CallResult.ok) ++
          (CallResult.ok "FINAL" :: []), []⟩
        ([{ content := "c1".data, sectionLabel := "s1" }] ++
          { content := "c2".data, sectionLabel := "s2" } ::
          [{ content := "c3".data, sectionLabel := "s3" }]) [] TaskType.narrative).1 =
      List.zipWith fmtSummary [{ content := "c1".data, sectionLabel := "s1" }]
          (["R1"].map CallResult.ok) ++
        ("ERROR - " ++ "s2" ++ ": No se pudo procesar\n") ::
          List.zipWith fmtSummary [{ content := "c3".data, sectionLabel := "s3" }]
            (["R3"].map CallResult.ok) ∧
    (processTorChunks
        ⟨true, (["R1"].map CallResult.ok ++ CallResult.exc "fallo" :: ["R3"].map CallResult.ok) ++
          (CallResult.ok "FINAL" :: []), []⟩ initStats
        ([{ content := "c1".data, sectionLabel := "s1" }] ++
          { content := "c2".data, sectionLabel := "s2" } ::
          [{ content := "c3".data, sectionLabel := "s3" }]) [] TaskType.narrative 3 8).1 =
      synthSuccess TaskType.narrative "FINAL" ∧
    (processTorChunks
        ⟨true, (["R1"].map CallResult.ok ++ CallResult.exc "fallo" :: ["R3"].map CallResult.ok) ++
          (CallResult.ok "FINAL" :: []), []⟩ initStats
        ([{ content := "c1".data, sectionLabel := "s1" }] ++
          { content := "c2".data, sectionLabel := "s2" } ::
          [{ content := "c3".data, sectionLabel := "s3" }]) [] TaskType.narrative 3 8).2.1.responses =
      [] :=
  ⟨by decide,
   c6_partial_failure_resilience
     [{ content := "c1".data, sectionLabel := "s1" }]
     [{ content := "c3".data, sectionLabel := "s3" }]
     { content := "c2".data, sectionLabel := "s2" }
     ["R1"] ["R3"] "fallo" "FINAL" [] [] initStats [] TaskType.narrative 3 8
     (by decide) (by decide) (by decide)⟩

end TokenManagerModel

namespace TokenManagerModel

/-! ## Claim C2 -/

theorem nonWs_append (a b : List Char) : nonWs (a ++ b) = nonWs a ++ nonWs b :=
  List.filter_append a b

theorem nonWs_cons (c : Char) (l : List Char) :
    nonWs (c :: l) = if pyIsSpace c then nonWs l else c :: nonWs l := by
  simp only [nonWs, List.filter_cons]
  by_cases hc : pyIsSpace c <;> simp [hc]

theorem nonWs_dropWhile (l : List Char) :
    nonWs (l.dropWhile pyIsSpace) = nonWs l := by
  induction l with
  | nil => rfl
  | cons c rest ih =>
    rw [List.dropWhile_cons]
    by_cases hc : pyIsSpace c
    · simp [hc, ih, nonWs_cons]
    · simp [hc, nonWs_cons]

theorem nonWs_reverse (l : List Char) : nonWs l.reverse = (nonWs l).reverse :=
  List.filter_reverse _ l

theorem nonWs_strip (l : List Char) : nonWs (pyStrip l) = nonWs l := by
  unfold pyStrip
  rw [nonWs_reverse, nonWs_dropWhile, nonWs_reverse, nonWs_dropWhile,
    List.reverse_reverse]

theorem splitNNGo_nonWs :
    ∀ (n : Nat) (l acc : List Char), l.length ≤ n →
      ((splitNNGo l acc).map nonWs).flatten = (nonWs acc).reverse ++ nonWs l := by
  intro n
  induction n with
  | zero =>
    intro l acc hl
    have hnil : l = [] := List.length_eq_zero.mp (by omega)
    subst hnil
    simp [splitNNGo, nonWs_reverse, nonWs]
  | succ n ih =>
    intro l acc hl
    match l with
    | [] => simp [splitNNGo, nonWs_reverse, nonWs]
    | [c] =>
      simp only [splitNNGo, List.map_cons, List.map_nil, List.flatten_cons,
        List.flatten_nil]
      rw [nonWs_reverse, nonWs_cons]
      by_cases hc : pyIsSpace c <;>
        simp [hc, nonWs_cons, nonWs, List.reverse_cons]
    | c1 :: c2 :: rest =>
      simp only [splitNNGo]
      by_cases hp : c1 = '\n' ∧ c2 = '\n'
      · obtain ⟨h1, h2⟩ := hp
        subst h1
        subst h2
        rw [if_pos ⟨rfl, rfl⟩]
        simp only [List.map_cons, List.flatten_cons]
        rw [ih rest [] (by simp only [List.length_cons] at hl; omega)]
        simp [nonWs_reverse, nonWs_cons, pyIsSpace, nonWs]
      · rw [if_neg hp]
        rw [ih (c2 :: rest) (c1 :: acc)
          (by simp only [List.length_cons] at hl ⊢; omega)]
        by_cases hc : pyIsSpace c1 <;>
          simp [nonWs_cons, hc, List.reverse_cons, List.append_assoc]

theorem splitNN_nonWs (l : List Char) :
    ((splitNN l).map nonWs).flatten = nonWs l := by
  unfold splitNN
  have h := splitNNGo_nonWs l.length l [] le_rfl
  simpa [nonWs] using h

theorem flatten_map_nonWs_filter (xs : List (List Char)) :
    (((xs.filter (· ≠ [])).map nonWs)).flatten = (xs.map nonWs).flatten := by
  induction xs with
  | nil => rfl
  | cons x rest ih =>
    simp only [ne_eq] at ih ⊢
    simp only [decide_not] at ih
    rw [List.filter_cons]
    by_cases hx : x = []
    · simp [hx, ih, nonWs]
    · simp [hx, ih]

theorem pyParagraphs_nonWs (content : List Char) :
    ((pyParagraphs content).map nonWs).flatten = nonWs content := by
  unfold pyParagraphs
  rw [flatten_map_nonWs_filter, List.map_map]
  have hcomp : nonWs ∘ pyStrip = nonWs := funext nonWs_strip
  rw [hcomp]
  exact splitNN_nonWs content

theorem paragraphChunkGo_nonWs (m : Nat) :
    ∀ (ps : List (List Char)) (chunks : List PyChunk) (cur : List Char) (curT : Nat),
      (((paragraphChunkGo m ps chunks cur curT).map PyChunk.content).map nonWs).flatten =
        (((chunks.map PyChunk.content).map nonWs).flatten ++ nonWs cur) ++
          (ps.map nonWs).flatten := by
  intro ps
  induction ps with
  | nil =>
    intro chunks cur curT
    simp only [paragraphChunkGo]
    by_cases hc : cur ≠ []
    · rw [if_pos hc]
      simp [nonWs_strip]
    · rw [if_neg hc]
      have : cur = [] := by simpa using hc
      subst this
      simp [nonWs]
  | cons p rest ih =>
    intro chunks cur curT
    simp only [paragraphChunkGo]
    by_cases hfit : curT + estimate_tokens p ≤ m
    · rw [if_pos hfit, ih]
      by_cases hc : cur ≠ []
      · rw [if_pos hc]
        simp only [nonWs_append, nonWs_cons]
        simp [pyIsSpace, List.append_assoc]
      · rw [if_neg hc]
        have : cur = [] := by simpa using hc
        subst this
        simp [nonWs]
    · rw [if_neg hfit, ih]
      by_cases hc : cur ≠ []
      · rw [if_pos hc]
        simp [nonWs_strip, List.append_assoc]
      · rw [if_neg hc]
        have : cur = [] := by simpa using hc
        subst this
        simp [nonWs]

theorem nonWs_flatten (xs : List (List Char)) :
    nonWs xs.flatten = (xs.map nonWs).flatten := by
  induction xs with
  | nil => rfl
  | cons x rest ih => simp [nonWs_append, ih]

/-- C2 amended: the raw paragraph-fallback splitter (`_paragraph_chunk`)
preserves coverage — concatenating its chunk contents in order reproduces
the input's non-whitespace character sequence exactly, for every text and
every budget (that splitter adds no overlap, drops nothing and duplicates
nothing).  The claim's full statement over `intelligent_chunk_tor` is false:
the post-processing validator drops sub-50-character chunks and the
section-based splitters drop text before the first recognised header and
sub-minimum sections (see the counterexample). -/
theorem c2_paragraph_coverage_amended (text : List Char) (m o : Nat) :
    nonWs (((paragraphChunk text m o).map PyChunk.content).flatten) = nonWs text := by
  rw [nonWs_flatten]
  unfold paragraphChunk
  rw [paragraphChunkGo_nonWs]
  simp [nonWs, pyParagraphs_nonWs]

end TokenManagerModel

namespace TokenManagerModel



set_option maxRecDepth 400000 in
set_option maxHeartbeats 16000000 in
/-- Counterexample to C2 as stated: at `c2Text` with
`max_tokens = 500 = MIN_CHUNK_SIZE` and the default overlap, the returned
chunk contents are exactly the two long paragraphs — the middle paragraph's
non-whitespace characters (`zq1zqzq`, the text's only `q`s and `z`s) appear
in no returned chunk.  Since stripping overlap prefixes only removes further
content, no overlap-prefix-stripping can recover them: the concatenation
cannot reproduce the source's non-whitespace character sequence. -/
theorem c2_chunk_coverage_counterexample :
    MIN_CHUNK_SIZE ≤ 500 ∧
    estimate_tokens c2Text = 1002 ∧
    (intelligentChunkTor c2Text 500 100 0).map PyChunk.content = [c2P1, c2P1] ∧
    c2P1.count 'q' = 0 ∧
    c2Text.count 'q' = 3 ∧
    nonWs (c2P1 ++ c2P1) ≠ nonWs c2Text :=
  ⟨by decide, by decide, by decide, by decide, by decide, by decide⟩

end TokenManagerModel
